import Mathlib

/-!
# wharf: the registry controllers

A shallow embedding of `controllers/imageapiv1.go` and
`controllers/repositoryapi.go`.

Every handler is a function of the request and of the world it runs in.
The calls a handler makes into the `models` package and into the operating
system go through two records of operations, `ImageModel` and `Sys`, so a
handler is translated statement by statement and a property proved for every
`ImageModel` and `Sys` holds whatever those packages do.  The `models`
package is not part of the sources at hand; where a property depends on what
it does, it is taken from the design document (the definitions whose
comment starts with "Modelled from the spec").

Go values are embedded as follows: a Go `string` that carries text is a
`String`, a layer blob is a list of bytes, an `error` is an `Option String`
(`none` is `nil`, `some t` an error whose `Error()` is `t`), a run-time
panic is an `Outcome.panic`.
-/

namespace Wharf

/-! ## Values -/

abbrev Byte := Fin 256

abbrev Bytes := List Byte

/-- A Go `error`: `none` is `nil`, `some t` is an error whose text is `t`. -/
abbrev GoError := Option String

/-- What `Output.Body` or `ServeJson` sends: raw bytes, the bytes of a text,
or the JSON rendering of `this.Data["json"]`. -/
inductive Body where
  | bytes (b : Bytes)
  | text (s : String)
  | jsonMessage (message : String)
  | jsonData (data : String)
  deriving DecidableEq, Repr

/-- The response a handler leaves behind: the status, the headers the handler
itself sets (in order, each with the value it has when the response is sent),
and the body. -/
structure Response where
  status : Nat
  headers : List (String × String)
  body : Body
  deriving DecidableEq, Repr

/-- How a handler ends: with a response, or with a Go run-time panic, in
which case the handler itself has produced no response. -/
inductive Outcome where
  | response (r : Response)
  | panic (reason : String)
  deriving DecidableEq, Repr

/-- The run of a handler: how it ended, the world it left, and the lines it
wrote with `beego.Error`. -/
structure Run (W : Type) where
  outcome : Outcome
  world : W
  log : List String

/-- The parts of `this.Ctx` a handler reads.  `copyBody` is
`string(this.Ctx.Input.CopyBody())`, `rawBody` is what
`ioutil.ReadAll(this.Ctx.Request.Body)` returns, `headerMemo` is the result of
`json.Marshal(this.Ctx.Input.Header)`. -/
structure Request where
  params : List (String × String)
  headers : List (String × String)
  copyBody : String
  rawBody : Bytes
  headerMemo : Bytes
  deriving DecidableEq, Repr

/-- The route parameter: `this.Ctx.Input.Param(key)`, empty when absent. -/
def Request.Param (req : Request) (key : String) : String :=
  (req.params.lookup key).getD ""

/-- The request header: `this.Ctx.Input.Header(key)`, empty when absent. -/
def Request.Header (req : Request) (key : String) : String :=
  (req.headers.lookup key).getD ""

def StatusOK : Nat := 200

def StatusNoContent : Nat := 204

def StatusBadRequest : Nat := 400

def StatusForbidden : Nat := 403

/-! ## `strings.Split` with a one-character separator -/

/-- The fields of a character list between the occurrences of `sep`. -/
def splitChars (sep : Char) : List Char → List (List Char)
  | [] => [[]]
  | c :: cs =>
    if c = sep then [] :: splitChars sep cs
    else
      match splitChars sep cs with
      | [] => [[c]]
      | h :: t => (c :: h) :: t

/-- Go `strings.Split(s, sep)` for a separator of one character. -/
def Split (s : String) (sep : Char) : List String :=
  (splitChars sep s.toList).map String.mk

/-! ## The `models.Image` boundary -/

/-- Modelled from the spec: the `models.Image` record, whose declaration is
not in the sources.  `Id`, `Path` and `Ancestry` are the fields the
controllers read; the others are the fields of the Image entity of the data
model (`parentId`, `metadataJSON`, `layerSize`, `checksum`,
`payloadChecksum`, `uploaded`, `checksummed`). -/
structure Image where
  Id : String
  JSON : String
  Parent : Option String
  Ancestry : String
  Checksum : String
  Payload : String
  Path : String
  Size : Nat
  Uploaded : Bool
  Checksumed : Bool
  deriving DecidableEq, Repr

/-- The value of `new(models.Image)`: every field zero. -/
def Image.new : Image :=
  ⟨"", "", none, "", "", "", "", 0, false, false⟩

/-- The arguments of `image.Log`. -/
structure LogEvent where
  action : Int
  level : Int
  type : Int
  id : String
  memo : Bytes
  deriving DecidableEq, Repr

/-- The methods of `models.Image` the controllers call, and the constants of
`models` they pass.  Each method gets the receiver and the world; a reading
method returns its Go results and the receiver it leaves, a writing method
its error, the receiver and the new world. -/
structure ImageModel (W : Type) where
  APIVERSION_V1 : Int
  ACTION_PUT_IMAGES_JSON : Int
  ACTION_PUT_IMAGES_LAYER : Int
  ACTION_PUT_IMAGES_CHECKSUM : Int
  LEVELINFORMATIONAL : Int
  TYPE_APIV1 : Int
  Has : Image → W → String → (Bool × String × GoError) × Image
  GetJSON : Image → W → String → (String × GoError) × Image
  GetChecksum : Image → W → String → (String × GoError) × Image
  PutJSON : Image → W → String → String → Int → GoError × Image × W
  PutLayer : Image → W → String → String → Bool → Nat → GoError × Image × W
  PutChecksum : Image → W → String → String → Bool → String → GoError × Image × W
  PutAncestry : Image → W → String → GoError × Image × W
  Log : Image → W → LogEvent → GoError × Image × W

/-! ## The operating-system boundary -/

/-- The file operations `PutImageLayer` and `GetImageLayer` use
(`utils.IsDirExists`, `os.MkdirAll`, `os.Stat`, `os.Remove`,
`ioutil.WriteFile`, `ioutil.ReadFile`) and the configured
`docker::BasePath`. -/
structure Sys (W : Type) where
  BasePath : String
  IsDirExists : W → String → Bool
  MkdirAll : W → String → GoError × W
  Stat : W → String → GoError
  Remove : W → String → GoError × W
  WriteFile : W → String → Bytes → GoError × W
  ReadFile : W → String → Bytes × GoError

/-! ## `ImageAPIV1Controller` -/

/-- `JSONOut`: the body is `{"message": message}` when `data` is nil, `data`
otherwise; the status is `code`. -/
def JSONOut (code : Nat) (message : String) (data : Option String) : Response :=
  match data with
  | none => ⟨code, [], Body.jsonMessage message⟩
  | some d => ⟨code, [], Body.jsonData d⟩

/-- Go `string(int64(n))`: the string of the one code point `n`, the
replacement character when `n` is not a valid code point. -/
def stringOfInt64 (n : Nat) : String :=
  if n.isValidChar then String.singleton (Char.ofNat n) else String.singleton (Char.ofNat 0xFFFD)

/-- The decimal representation of a number: Go `strconv.Itoa`. -/
def decimal (n : Nat) : String :=
  Nat.repr n

/-- `Header().Set(key, value)` on the headers set so far: the value of a
header that is already set is replaced, a new header is added at the end. -/
def setHeader (headers : List (String × String)) (key value : String) :
    List (String × String) :=
  if (headers.lookup key).isSome then
    headers.map (fun h => if h.1 = key then (key, value) else h)
  else headers ++ [(key, value)]

section Handlers

variable {W : Type}

def GetImageJSON (M : ImageModel W) (w : W) (req : Request) : Run W :=
  let imageId := req.Param ":image_id"
  let image := Image.new
  let r1 := M.GetJSON image w imageId
  match r1.1.2 with
  | some e =>
    ⟨Outcome.response (JSONOut StatusBadRequest "Search Image JSON Error" none), w,
      ["[REGISTRY API V1] Search Image JSON Error: " ++ e]⟩
  | none =>
    let r2 := M.GetChecksum r1.2 w imageId
    match r2.1.2 with
    | some e =>
      ⟨Outcome.response (JSONOut StatusBadRequest "Search Image Checksum Error" none), w,
        ["[REGISTRY API V1] Search Image Checksum Error: " ++ e]⟩
    | none =>
      ⟨Outcome.response ⟨StatusOK, [("X-Docker-Checksum", r2.1.1)], Body.text r1.1.1⟩, w, []⟩

def PutImageJSON (M : ImageModel W) (w : W) (req : Request) : Run W :=
  let imageId := req.Param ":image_id"
  let image := Image.new
  let j := req.copyBody
  let r1 := M.PutJSON image w imageId j M.APIVERSION_V1
  match r1.1 with
  | some e =>
    ⟨Outcome.response (JSONOut StatusBadRequest "Put Image JSON Error" none), r1.2.2,
      ["[REGISTRY API V1] Put Image JSON Error: " ++ e]⟩
  | none =>
    let memo := req.headerMemo
    let r2 := M.Log r1.2.1 r1.2.2
      ⟨M.ACTION_PUT_IMAGES_JSON, M.LEVELINFORMATIONAL, M.TYPE_APIV1, r1.2.1.Id, memo⟩
    ⟨Outcome.response ⟨StatusOK, [], Body.text ""⟩, r2.2.2,
      match r2.1 with
      | some e => ["[REGISTRY API V1] Log Error:" ++ e]
      | none => []⟩

def PutImageLayer (M : ImageModel W) (S : Sys W) (w : W) (req : Request) : Run W :=
  let imageId := req.Param ":image_id"
  let image := Image.new
  let basePath := S.BasePath
  let imagePath := basePath ++ "/images/" ++ imageId
  let layerfile := basePath ++ "/images/" ++ imageId ++ "/layer"
  let w1 := if S.IsDirExists w imagePath then w else (S.MkdirAll w imagePath).2
  let w2 := if S.Stat w1 layerfile = none then (S.Remove w1 layerfile).2 else w1
  let data := req.rawBody
  let r3 := S.WriteFile w2 layerfile data
  match r3.1 with
  | some e =>
    ⟨Outcome.response (JSONOut StatusBadRequest "Put Image Layer File Error" none), r3.2,
      ["[REGISTRY API V1] Put Image Layer File Error: " ++ e]⟩
  | none =>
    let r4 := M.PutLayer image r3.2 imageId layerfile true data.length
    match r4.1 with
    | some e =>
      ⟨Outcome.response (JSONOut StatusBadRequest "Put Image Layer File Data Error" none),
        r4.2.2, ["[REGISTRY API V1] Put Image Layer File Data Error: " ++ e]⟩
    | none =>
      let memo := req.headerMemo
      let r5 := M.Log r4.2.1 r4.2.2
        ⟨M.ACTION_PUT_IMAGES_LAYER, M.LEVELINFORMATIONAL, M.TYPE_APIV1, r4.2.1.Id, memo⟩
      ⟨Outcome.response ⟨StatusOK, [], Body.text ""⟩, r5.2.2,
        match r5.1 with
        | some e => ["[REGISTRY API V1] Log Error:" ++ e]
        | none => []⟩

def PutChecksum (M : ImageModel W) (w : W) (req : Request) : Run W :=
  let imageId := req.Param ":image_id"
  let image := Image.new
  match (Split (req.Header "X-Docker-Checksum") ':')[1]? with
  | none => ⟨Outcome.panic "runtime error: index out of range", w, []⟩
  | some checksum =>
    match (Split (req.Header "X-Docker-Checksum-Payload") ':')[1]? with
    | none => ⟨Outcome.panic "runtime error: index out of range", w, []⟩
    | some payload =>
      let r1 := M.PutChecksum image w imageId checksum true payload
      match r1.1 with
      | some e =>
        ⟨Outcome.response (JSONOut StatusBadRequest "Put Image Checksum & Payload Error" none),
          r1.2.2, ["[REGISTRY API V1] Put Image Checksum & Payload Error: " ++ e]⟩
      | none =>
        let r2 := M.PutAncestry r1.2.1 r1.2.2 imageId
        match r2.1 with
        | some e =>
          ⟨Outcome.response (JSONOut StatusBadRequest "Put Image Ancestry Error" none),
            r2.2.2, ["[REGISTRY API V1] Put Image Ancestry Error: " ++ e]⟩
        | none =>
          let memo := req.headerMemo
          let r3 := M.Log r2.2.1 r2.2.2
            ⟨M.ACTION_PUT_IMAGES_CHECKSUM, M.LEVELINFORMATIONAL, M.TYPE_APIV1, r2.2.1.Id, memo⟩
          ⟨Outcome.response ⟨StatusOK, [], Body.text ""⟩, r3.2.2,
            match r3.1 with
            | some e => ["[REGISTRY API V1] Log Error:" ++ e]
            | none => []⟩

def GetImageAncestry (M : ImageModel W) (w : W) (req : Request) : Run W :=
  let imageId := req.Param ":image_id"
  let image := Image.new
  let r1 := M.Has image w imageId
  match r1.1.2.2 with
  | some e =>
    ⟨Outcome.response (JSONOut StatusBadRequest "Read Image Ancestry Error" none), w,
      ["[REGISTRY API V1] Read Image Ancestry Error: " ++ e]⟩
  | none =>
    if r1.1.1 = false then
      -- `err.Error()` is evaluated for the log line while `err` is nil
      ⟨Outcome.panic "runtime error: invalid memory address or nil pointer dereference", w, []⟩
    else
      ⟨Outcome.response ⟨StatusOK, [], Body.text r1.2.Ancestry⟩, w, []⟩

def GetImageLayer (M : ImageModel W) (S : Sys W) (w : W) (req : Request) : Run W :=
  let imageId := req.Param ":image_id"
  let image := Image.new
  let r1 := M.Has image w imageId
  match r1.1.2.2 with
  | some e =>
    ⟨Outcome.response (JSONOut StatusBadRequest "Read Image Layer file Error" none), w,
      ["[REGISTRY API V1] Read Image Layer File Status Error: " ++ e]⟩
  | none =>
    if r1.1.1 = false then
      ⟨Outcome.response (JSONOut StatusBadRequest "Read Image None" none), w,
        ["[REGISTRY API V1] Read Image None Error"]⟩
    else
      let layerfile := r1.2.Path
      match S.Stat w layerfile with
      | some e =>
        ⟨Outcome.response (JSONOut StatusBadRequest "Read Image file state error" none), w,
          ["[REGISTRY API V1] Read Image file state error: " ++ e]⟩
      | none =>
        let r2 := S.ReadFile w layerfile
        match r2.2 with
        | some e =>
          ⟨Outcome.response (JSONOut StatusBadRequest "Read Image file error" none), w,
            ["[REGISTRY API V1] Read Image file error: " ++ e]⟩
        | none =>
          let headers :=
            setHeader
              (setHeader (setHeader [] "Content-Type" "application/octet-stream")
                "Content-Transfer-Encoding" "binary")
              "Content-Length" (stringOfInt64 r2.1.length)
          -- `Output.Body(file)` is the last call: with response compression off
          -- (beego's default) it sets `Content-Length` to
          -- `strconv.Itoa(len(content))` itself before it writes the body
          ⟨Outcome.response
            ⟨StatusOK, setHeader headers "Content-Length" (decimal r2.1.length),
              Body.bytes r2.1⟩, w, []⟩

end Handlers

/-! ## The `models.Repository` boundary -/

/-- Modelled from the spec: the `models.Repository` record, whose declaration
is not in the sources.  `Tags` (a slice of tag ids) and `JSON` are the fields
the controllers read; `Images` and `Uploaded` are the `images` set and the
`uploadCompleted` flag of the data model. -/
structure Repository where
  Namespace : String
  Name : String
  JSON : String
  Tags : List String
  Images : List String
  Uploaded : Bool
  deriving DecidableEq, Repr

/-- The value of `new(models.Repository)`. -/
def Repository.new : Repository :=
  ⟨"", "", "", [], [], false⟩

/-- Modelled from the spec: the `models.Tag` record, whose declaration is not
in the sources: a named pointer to an image id, read by its own id. -/
structure Tag where
  UUID : String
  Name : String
  ImageId : String
  deriving DecidableEq, Repr

/-- The value of `new(models.Tag)`. -/
def Tag.new : Tag :=
  ⟨"", "", ""⟩

/-- A value held in the beego session (a Go `interface{}`): a string, or a
value of another dynamic type. -/
inductive SessionValue where
  | str (s : String)
  | other (shown : String)
  deriving DecidableEq, Repr

/-- The server-side session of the request. -/
abbrev Session := List (String × SessionValue)

/-- `this.GetSession(key)`: `none` is the nil interface. -/
def GetSession (sess : Session) (key : String) : Option SessionValue :=
  sess.lookup key

/-- The functions of `models` that `RepositoryAPIController` calls.  The
`DoAuth` functions get the whole context, the session included. -/
structure RepoModel (W : Type) where
  DoAuthPutRepositoryTag : W → Request → Session → Bool × Nat × String
  DoAuthPutRepositoryImage : W → Request → Session → Bool × Nat × String
  DoAuthGetRepositoryTags : W → Request → Session → Bool × Nat × String
  Has : Repository → W → String → String → (Bool × String × GoError) × Repository
  PutTag : Repository → W → String → String → String → String → GoError × Repository × W
  PutImages : Repository → W → String → String → GoError × Repository × W
  GetByUUID : Tag → W → String → GoError × Tag

/-- The run of a `RepositoryAPIController` handler. -/
structure RepoRun (W : Type) where
  outcome : Outcome
  world : W

/-! ## The regular expression of `PutTag` -/

/-- The double quote character. -/
def quoteChar : Char :=
  Char.ofNat 34

/-- The class `[[:alnum:]]`: the ASCII letters and digits. -/
def isAlnum (c : Char) : Bool :=
  ('0' ≤ c && c ≤ '9') || ('A' ≤ c && c ≤ 'Z') || ('a' ≤ c && c ≤ 'z')

/-- The group of a match of `"([[:alnum:]]+)"` that starts at the head of the
input: a quote, the longest run of alphanumerics (at least one), a quote. -/
def matchQuotedAt : List Char → Option (List Char)
  | [] => none
  | c :: rest =>
    if c = quoteChar ∧ rest.takeWhile isAlnum ≠ [] ∧
        (rest.dropWhile isAlnum).head? = some quoteChar then
      some (rest.takeWhile isAlnum)
    else none

/-- The leftmost match of `"([[:alnum:]]+)"`: the whole match and its
group. -/
def findQuoted : List Char → Option (List (List Char))
  | [] => none
  | c :: cs =>
    match matchQuotedAt (c :: cs) with
    | some g => some [(quoteChar :: g) ++ [quoteChar], g]
    | none => findQuoted cs

/-- Go `r.FindStringSubmatch(s)` for the expression of `PutTag`; `none` is the
nil slice. -/
def FindStringSubmatch (s : String) : Option (List String) :=
  (findQuoted s.toList).map (fun m => m.map String.mk)

/-! ## `RepositoryAPIController` -/

section RepoHandlers

variable {W : Type}

def PutTag (M : RepoModel W) (w : W) (req : Request) (sess : Session) : RepoRun W :=
  let auth := M.DoAuthPutRepositoryTag w req sess
  if auth.1 = false then
    ⟨Outcome.response ⟨auth.2.1, [], Body.text auth.2.2⟩, w⟩
  else
    -- beego.Debug("[Session username] " + this.GetSession("username").(string))
    match GetSession sess "username" with
    | none =>
      ⟨Outcome.panic "interface conversion: interface \x7b\x7d is nil, not string", w⟩
    | some (SessionValue.other _) =>
      ⟨Outcome.panic "interface conversion: interface \x7b\x7d is not string", w⟩
    | some (SessionValue.str _) =>
      let nspace := req.Param ":namespace"
      let repository := req.Param ":repo_name"
      let tag := req.Param ":tag"
      let imageIds := FindStringSubmatch req.copyBody
      let repo := Repository.new
      match (imageIds.getD [])[1]? with
      | none => ⟨Outcome.panic "runtime error: index out of range", w⟩
      | some imageId =>
        let r := M.PutTag repo w imageId nspace repository tag
        match r.1 with
        | some _ =>
          ⟨Outcome.response ⟨StatusBadRequest, [], Body.text "\x7b\"错误\":\"更新 Tag 数据错误\"\x7d"⟩,
            r.2.2⟩
        | none =>
          ⟨Outcome.response ⟨StatusOK, [], Body.text "\"\""⟩, r.2.2⟩

def PutRepositoryImages (M : RepoModel W) (w : W) (req : Request) (sess : Session) :
    RepoRun W :=
  let auth := M.DoAuthPutRepositoryImage w req sess
  if auth.1 = false then
    ⟨Outcome.response ⟨auth.2.1, [], Body.text auth.2.2⟩, w⟩
  else
    let nspace := req.Param ":namespace"
    let repository := req.Param ":repo_name"
    let repo := Repository.new
    let r := M.PutImages repo w nspace repository
    match r.1 with
    | some _ =>
      ⟨Outcome.response
        ⟨StatusBadRequest, [], Body.text "\x7b\"错误\":\"更新 Uploaded 标志错误\"\x7d"⟩, r.2.2⟩
    | none =>
      ⟨Outcome.response ⟨StatusNoContent, [], Body.text "\"\""⟩, r.2.2⟩

/-- The loop of `GetRepositoryTags` over `repo.Tags`, from position `index`
on, with the text built so far: the finished text, or the response of the
first tag that does not resolve. -/
def tagsLoop (M : RepoModel W) (w : W) (nspace repository : String) :
    Nat → List String → String → Except Response String
  | _, [], nowTags => Except.ok nowTags
  | index, value :: rest, nowTags =>
    let nowTags1 := if index ≠ 0 then nowTags ++ "," else nowTags
    let r := M.GetByUUID Tag.new w value
    match r.1 with
    | some _ =>
      Except.error ⟨StatusBadRequest, [],
        Body.text ("[API 用户]  " ++ nspace ++ "/" ++ repository ++ " Tags 不存在")⟩
    | none =>
      tagsLoop M w nspace repository (index + 1) rest
        (nowTags1 ++ ("\"" ++ r.2.Name ++ "\":\"" ++ r.2.ImageId ++ "\""))

def GetRepositoryTags (M : RepoModel W) (w : W) (req : Request) (sess : Session) :
    RepoRun W :=
  let auth := M.DoAuthGetRepositoryTags w req sess
  if auth.1 = false then
    ⟨Outcome.response ⟨auth.2.1, [], Body.text auth.2.2⟩, w⟩
  else
    let nspace := req.Param ":namespace"
    let repository := req.Param ":repo_name"
    let repo := Repository.new
    let r := M.Has repo w nspace repository
    match r.1.2.2 with
    | some _ =>
      ⟨Outcome.response ⟨StatusBadRequest, [], Body.text "\x7b\"错误\":\"读取 Tag 数据错误\"\x7d"⟩, w⟩
    | none =>
      if r.1.1 = false then
        ⟨Outcome.response ⟨StatusBadRequest, [],
          Body.text ("[API 用户]  " ++ nspace ++ "/" ++ repository ++ " 不存在")⟩, w⟩
      else
        match tagsLoop M w nspace repository 0 r.2.Tags "\x7b" with
        | Except.error resp => ⟨Outcome.response resp, w⟩
        | Except.ok nowTags =>
          ⟨Outcome.response ⟨StatusOK, [], Body.text (nowTags ++ "\x7d")⟩, w⟩

end RepoHandlers

/-! ## A file system

The operating system's side of `Sys`: files and directories addressed by
their path, on a volume of bounded capacity. -/

structure FileSys where
  files : List (String × Bytes)
  dirs : List String
  capacity : Nat
  deriving DecidableEq, Repr

/-- The bytes the files of a list take up. -/
def usedBytes (files : List (String × Bytes)) : Nat :=
  (files.map (fun f => f.2.length)).sum

/-- The directory a path lies in: the path up to its last `/`. -/
def parentOf (p : String) : String :=
  String.mk (((p.toList.reverse.dropWhile (fun c => c != '/')).drop 1).reverse)

/-- A path and the directories above it, at most `n` of them. -/
def pathChain : Nat → String → List String
  | 0, _ => []
  | n + 1, p => if p = "" then [] else p :: pathChain n (parentOf p)

def FileSys.isFile (fs : FileSys) (p : String) : Bool :=
  (fs.files.lookup p).isSome

def FileSys.isDir (fs : FileSys) (p : String) : Bool :=
  fs.dirs.contains p

/-- `os.MkdirAll`: creates the directory and those above it; fails where a
file is in the way. -/
def FileSys.MkdirAll (fs : FileSys) (p : String) : GoError × FileSys :=
  let chain := pathChain (p.length + 1) p
  if chain.any fs.isFile then (some ("mkdir " ++ p ++ ": not a directory"), fs)
  else (none, { fs with dirs := chain.filter (fun d => !fs.isDir d) ++ fs.dirs })

/-- `os.Stat`: succeeds on a file or a directory. -/
def FileSys.Stat (fs : FileSys) (p : String) : GoError :=
  if fs.isFile p || fs.isDir p then none
  else some ("stat " ++ p ++ ": no such file or directory")

/-- `os.Remove`: removes a file, or a directory that is empty. -/
def FileSys.Remove (fs : FileSys) (p : String) : GoError × FileSys :=
  if fs.isFile p then (none, { fs with files := fs.files.filter (fun f => f.1 != p) })
  else if fs.isDir p then
    if fs.files.any (fun f => parentOf f.1 == p) || fs.dirs.any (fun d => parentOf d == p) then
      (some ("remove " ++ p ++ ": directory not empty"), fs)
    else (none, { fs with dirs := fs.dirs.filter (fun d => d != p) })
  else (some ("remove " ++ p ++ ": no such file or directory"), fs)

/-- `ioutil.WriteFile`: opens the file, creating or truncating it, then
writes; when the volume is full only the bytes that fit are written and the
write fails. -/
def FileSys.WriteFile (fs : FileSys) (p : String) (data : Bytes) : GoError × FileSys :=
  if fs.isDir p then (some ("open " ++ p ++ ": is a directory"), fs)
  else if parentOf p != "" && !fs.isDir (parentOf p) then
    (some ("open " ++ p ++ ": no such file or directory"), fs)
  else
    let others := fs.files.filter (fun f => f.1 != p)
    let room := fs.capacity - usedBytes others
    if data.length ≤ room then (none, { fs with files := (p, data) :: others })
    else
      (some ("write " ++ p ++ ": no space left on device"),
        { fs with files := (p, data.take room) :: others })

/-- `ioutil.ReadFile`: the whole content of a file. -/
def FileSys.ReadFile (fs : FileSys) (p : String) : Bytes × GoError :=
  match fs.files.lookup p with
  | some b => (b, none)
  | none =>
    if fs.isDir p then ([], some ("read " ++ p ++ ": is a directory"))
    else ([], some ("open " ++ p ++ ": no such file or directory"))

/-! ## The registry as a world -/

/-- Everything the registry keeps: the image, repository and tag records, the
blob store, and the audit events. -/
structure Registry where
  images : List Image
  repositories : List Repository
  tags : List Tag
  fs : FileSys
  audit : List LogEvent
  deriving DecidableEq, Repr

/-- What a deployment fixes: the base path of the blob store, the content
digest, the typed extraction of `(id, parent)` from a metadata JSON, the cap on
the length of a parent chain, and the decision of the authorization gate. -/
structure Config where
  BasePath : String
  digest : Bytes → String
  extract : String → Option (String × Option String)
  maxDepth : Nat
  authorize : Request → Session → Bool × Nat × String

/-- The operating-system operations on the registry's blob store. -/
def registrySys (C : Config) : Sys Registry where
  BasePath := C.BasePath
  IsDirExists := fun w p => w.fs.isDir p
  MkdirAll := fun w p => ((w.fs.MkdirAll p).1, { w with fs := (w.fs.MkdirAll p).2 })
  Stat := fun w p => w.fs.Stat p
  Remove := fun w p => ((w.fs.Remove p).1, { w with fs := (w.fs.Remove p).2 })
  WriteFile := fun w p d => ((w.fs.WriteFile p d).1, { w with fs := (w.fs.WriteFile p d).2 })
  ReadFile := fun w p => w.fs.ReadFile p

def findImage (images : List Image) (id : String) : Option Image :=
  images.find? (fun i => i.Id == id)

/-- Stores a record in place of the one with the same id. -/
def saveImage (w : Registry) (img : Image) : Registry :=
  { w with images := img :: w.images.filter (fun i => i.Id != img.Id) }

/-- Modelled from the spec: `image.Has`, absent from the sources.  An image is
known once its metadata has been registered; a known image is loaded into the
receiver. -/
def specHas (recv : Image) (w : Registry) (imageId : String) :
    (Bool × String × GoError) × Image :=
  match findImage w.images imageId with
  | some img => ((true, imageId, none), img)
  | none => ((false, "", none), recv)

/-- Modelled from the spec: `image.GetJSON`, absent from the sources
(`getJSON`: fails with `NotFound` if the image is unknown). -/
def specGetJSON (recv : Image) (w : Registry) (imageId : String) :
    (String × GoError) × Image :=
  match findImage w.images imageId with
  | some img => ((img.JSON, none), img)
  | none => (("", some ("NotFound: " ++ imageId)), recv)

/-- Modelled from the spec: `image.GetChecksum`, absent from the sources. -/
def specGetChecksum (recv : Image) (w : Registry) (imageId : String) :
    (String × GoError) × Image :=
  match findImage w.images imageId with
  | some img => ((img.Checksum, none), img)
  | none => (("", some ("NotFound: " ++ imageId)), recv)

/-- Modelled from the spec: `image.PutJSON`, absent from the sources
(`putJSON`: creates or overwrites the metadata record; fails with
`InvalidMetadata` if the JSON cannot be parsed or lacks an id). -/
def specPutJSON (C : Config) (recv : Image) (w : Registry) (imageId j : String) (_version : Int) :
    GoError × Image × Registry :=
  match C.extract j with
  | none => (some ("InvalidMetadata: " ++ imageId), recv, w)
  | some fields =>
    let img : Image :=
      match findImage w.images imageId with
      | some old => { old with JSON := j, Parent := fields.2 }
      | none => { Image.new with Id := imageId, JSON := j, Parent := fields.2 }
    (none, img, saveImage w img)

/-- Modelled from the spec: `image.PutLayer`, absent from the sources
(`putLayer`: requires `Registered`; records the reference to the blob and its
size; does not advance to `Checksummed`). -/
def specPutLayer (recv : Image) (w : Registry) (imageId path : String) (uploaded : Bool)
    (size : Nat) : GoError × Image × Registry :=
  match findImage w.images imageId with
  | none => (some ("NotFound: " ++ imageId), recv, w)
  | some old =>
    let img : Image := { old with Path := path, Uploaded := uploaded, Size := size }
    (none, img, saveImage w img)

/-- Lower case of a text, character by character. -/
def lowerCase (s : String) : String :=
  String.mk (s.toList.map Char.toLower)

/-- Modelled from the spec: the Checksum Validator, absent from the sources
(`validate(storedBytes, declaredChecksum)`: the content digest of the stored
blob compared case-insensitively with the declared value). -/
def validate (C : Config) (storedBytes : Bytes) (declaredChecksum : String) : Bool :=
  lowerCase (C.digest storedBytes) == lowerCase declaredChecksum

/-- The stored layer of an image record: the blob at its path, once a layer
has been uploaded. -/
def storedLayer (w : Registry) (img : Image) : Option Bytes :=
  if img.Uploaded then w.fs.files.lookup img.Path else none

/-- Modelled from the spec: `image.PutChecksum`, absent from the sources
(`putChecksum`: requires a stored layer; recomputes the layer's digest and
compares it to `checksum`; on mismatch fails with `ChecksumMismatch` and the
record stays as it is; on a match stores both checksums and the flag). -/
def specPutChecksum (C : Config) (recv : Image) (w : Registry) (imageId checksum : String)
    (checksumed : Bool) (payload : String) : GoError × Image × Registry :=
  match findImage w.images imageId with
  | none => (some ("NotFound: " ++ imageId), recv, w)
  | some old =>
    match storedLayer w old with
    | none => (some ("NotReady: " ++ imageId), old, w)
    | some stored =>
      if validate C stored checksum then
        let img : Image :=
          { old with Checksum := checksum, Payload := payload, Checksumed := checksumed }
        (none, img, saveImage w img)
      else (some ("ChecksumMismatch: " ++ imageId), old, w)

/-- Modelled from the spec: the walk of the Ancestry Builder, absent from the
sources: follows the parent links from `id`, collecting the ids in chain
order; fails with `AncestryCycle` if an id recurs or the chain is longer than
the cap, and with `NotFound` at a parent that is not registered. -/
def ancestryWalk (images : List Image) : Nat → String → List String → Except String (List String)
  | 0, _, _ => Except.error "AncestryCycle"
  | fuel + 1, id, seen =>
    if seen.contains id then Except.error "AncestryCycle"
    else
      match findImage images id with
      | none => Except.error ("NotFound: " ++ id)
      | some img =>
        match img.Parent with
        | none => Except.ok (seen ++ [id])
        | some p => ancestryWalk images fuel p (seen ++ [id])

/-- The JSON array of a list of ids. -/
def renderIds (ids : List String) : String :=
  "[" ++ ",".intercalate (ids.map (fun i => "\"" ++ i ++ "\"")) ++ "]"

/-- Modelled from the spec: `image.PutAncestry`, absent from the sources: runs
the Ancestry Builder and stores the list on the record. -/
def specPutAncestry (C : Config) (recv : Image) (w : Registry) (imageId : String) :
    GoError × Image × Registry :=
  match findImage w.images imageId with
  | none => (some ("NotFound: " ++ imageId), recv, w)
  | some old =>
    match ancestryWalk w.images C.maxDepth imageId [] with
    | Except.error e => (some e, old, w)
    | Except.ok ids =>
      let img : Image := { old with Ancestry := renderIds ids }
      (none, img, saveImage w img)

/-- Modelled from the spec: `image.Log`, absent from the sources: hands the
event to the audit sink. -/
def specLog (recv : Image) (w : Registry) (ev : LogEvent) : GoError × Image × Registry :=
  (none, recv, { w with audit := w.audit ++ [ev] })

/-- Modelled from the spec: the `models.Image` methods over the registry. -/
def specImageModel (C : Config) : ImageModel Registry where
  APIVERSION_V1 := 1
  ACTION_PUT_IMAGES_JSON := 1
  ACTION_PUT_IMAGES_LAYER := 2
  ACTION_PUT_IMAGES_CHECKSUM := 3
  LEVELINFORMATIONAL := 6
  TYPE_APIV1 := 1
  Has := specHas
  GetJSON := specGetJSON
  GetChecksum := specGetChecksum
  PutJSON := specPutJSON C
  PutLayer := specPutLayer
  PutChecksum := specPutChecksum C
  PutAncestry := specPutAncestry C
  Log := specLog

/-! ## The repository records over the registry -/

def findRepository (repos : List Repository) (nspace name : String) : Option Repository :=
  repos.find? (fun r => r.Namespace == nspace && r.Name == name)

def findTag (tags : List Tag) (uuid : String) : Option Tag :=
  tags.find? (fun t => t.UUID == uuid)

/-- Stores a repository record in place of the one with the same key. -/
def saveRepository (w : Registry) (rp : Repository) : Registry :=
  { w with repositories :=
      rp :: w.repositories.filter (fun r => !(r.Namespace == rp.Namespace && r.Name == rp.Name)) }

/-- Stores a tag record in place of the one with the same id. -/
def saveTag (w : Registry) (t : Tag) : Registry :=
  { w with tags := t :: w.tags.filter (fun x => x.UUID != t.UUID) }

/-- Modelled from the spec: `repo.Has`, absent from the sources: a repository
that exists is loaded into the receiver. -/
def specRepoHas (recv : Repository) (w : Registry) (nspace name : String) :
    (Bool × String × GoError) × Repository :=
  match findRepository w.repositories nspace name with
  | some rp => ((true, nspace ++ "/" ++ name, none), rp)
  | none => ((false, "", none), recv)

/-- The id under which the tag `tag` of a repository is stored. -/
def tagUUID (nspace name tag : String) : String :=
  nspace ++ "/" ++ name ++ "/tags/" ++ tag

/-- Modelled from the spec: `repo.PutTag`, absent from the sources (`putTag`:
requires the repository to exist, fails with `NotFound` otherwise; sets or
overwrites `tags[tag] = imageId` and adds `imageId` to the `images` set; does
not require the image to be `Checksummed`). -/
def specPutTag (recv : Repository) (w : Registry) (imageId nspace name tag : String) :
    GoError × Repository × Registry :=
  match findRepository w.repositories nspace name with
  | none => (some ("NotFound: " ++ nspace ++ "/" ++ name), recv, w)
  | some old =>
    let uuid := tagUUID nspace name tag
    let rp : Repository :=
      { old with
        Tags := if old.Tags.contains uuid then old.Tags else old.Tags ++ [uuid],
        Images := if old.Images.contains imageId then old.Images else old.Images ++ [imageId] }
    (none, rp, saveTag (saveRepository w rp) ⟨uuid, tag, imageId⟩)

/-- The first image on the parent chain from `id` that is not `Checksummed`
(an unregistered image is not), looking at most `fuel` images far; a chain
longer than that is reported at the image where the walk stops. -/
def chainOffender (images : List Image) : Nat → String → Option String
  | 0, id => some id
  | fuel + 1, id =>
    match findImage images id with
    | none => some id
    | some img =>
      if img.Checksumed = false then some id
      else
        match img.Parent with
        | none => none
        | some p => chainOffender images fuel p

/-- The first offending id over the tags of a repository, in tag order; a tag
id that resolves to no tag record is itself reported. -/
def firstOffender (w : Registry) (maxDepth : Nat) : List String → Option String
  | [] => none
  | uuid :: rest =>
    match findTag w.tags uuid with
    | none => some uuid
    | some t =>
      match chainOffender w.images maxDepth t.ImageId with
      | some bad => some bad
      | none => firstOffender w maxDepth rest

/-- Modelled from the spec: `repo.PutImages`, absent from the sources
(`finalize`: iterates every image referenced by every tag, transitively via
ancestry, and requires each to be `Checksummed`; fails with `IncompleteUpload`
naming the first offending image id if any is not; on success sets
`uploadCompleted = true`). -/
def specPutImages (C : Config) (recv : Repository) (w : Registry) (nspace name : String) :
    GoError × Repository × Registry :=
  match findRepository w.repositories nspace name with
  | none => (some ("NotFound: " ++ nspace ++ "/" ++ name), recv, w)
  | some old =>
    match firstOffender w C.maxDepth old.Tags with
    | some bad => (some ("IncompleteUpload: " ++ bad), old, w)
    | none =>
      let rp : Repository := { old with Uploaded := true }
      (none, rp, saveRepository w rp)

/-- Modelled from the spec: `tag.GetByUUID`, absent from the sources. -/
def specGetByUUID (recv : Tag) (w : Registry) (uuid : String) : GoError × Tag :=
  match findTag w.tags uuid with
  | some t => (none, t)
  | none => (some ("NotFound: " ++ uuid), recv)

/-- Modelled from the spec: the `models` functions of the repository
controller over the registry; the authorization gate answers as configured. -/
def specRepoModel (C : Config) : RepoModel Registry where
  DoAuthPutRepositoryTag := fun _ req sess => C.authorize req sess
  DoAuthPutRepositoryImage := fun _ req sess => C.authorize req sess
  DoAuthGetRepositoryTags := fun _ req sess => C.authorize req sess
  Has := specRepoHas
  PutTag := specPutTag
  PutImages := specPutImages C
  GetByUUID := specGetByUUID

/-- The image `a` is `i` itself or an ancestor of `i`: it is reached from `i`
along the parent links of the registered images. -/
inductive Reaches (images : List Image) : String → String → Prop where
  | self (i : String) : Reaches images i i
  | step (i p a : String) (img : Image) :
      findImage images i = some img → img.Parent = some p → Reaches images p a →
      Reaches images i a

/-- The image `id` is `Checksummed`: it is registered and its flag is set. -/
def IsChecksummed (images : List Image) (id : String) : Prop :=
  ∃ img, findImage images id = some img ∧ img.Checksumed = true

/-! ## Sample deployments -/

/-- A toy digest for the examples: the length of the blob in unary. -/
def lengthDigest (b : Bytes) : String :=
  String.mk (List.replicate b.length 'a')

/-- A sample configuration: every request is authorized. -/
def sampleConfig : Config where
  BasePath := "/data"
  digest := lengthDigest
  extract := fun _ => some ("", none)
  maxDepth := 8
  authorize := fun _ _ => (true, 0, "")

/-! ## Runs that differ only in the text of an error -/

/-- Two Go errors that are both nil or both an error, whatever their text. -/
def sameError (a b : GoError) : Prop :=
  a = none ↔ b = none

/-- Two image stores that answer every call alike except for the text of the
errors they return. -/
structure AgreeUpToErrorText {W : Type} (M1 M2 : ImageModel W) : Prop where
  version : M1.APIVERSION_V1 = M2.APIVERSION_V1
  actionJSON : M1.ACTION_PUT_IMAGES_JSON = M2.ACTION_PUT_IMAGES_JSON
  actionLayer : M1.ACTION_PUT_IMAGES_LAYER = M2.ACTION_PUT_IMAGES_LAYER
  actionChecksum : M1.ACTION_PUT_IMAGES_CHECKSUM = M2.ACTION_PUT_IMAGES_CHECKSUM
  level : M1.LEVELINFORMATIONAL = M2.LEVELINFORMATIONAL
  apiType : M1.TYPE_APIV1 = M2.TYPE_APIV1
  has : ∀ r w i, (M1.Has r w i).1.1 = (M2.Has r w i).1.1 ∧
    (M1.Has r w i).1.2.1 = (M2.Has r w i).1.2.1 ∧
    sameError (M1.Has r w i).1.2.2 (M2.Has r w i).1.2.2 ∧ (M1.Has r w i).2 = (M2.Has r w i).2
  getJSON : ∀ r w i, (M1.GetJSON r w i).1.1 = (M2.GetJSON r w i).1.1 ∧
    sameError (M1.GetJSON r w i).1.2 (M2.GetJSON r w i).1.2 ∧
    (M1.GetJSON r w i).2 = (M2.GetJSON r w i).2
  getChecksum : ∀ r w i, (M1.GetChecksum r w i).1.1 = (M2.GetChecksum r w i).1.1 ∧
    sameError (M1.GetChecksum r w i).1.2 (M2.GetChecksum r w i).1.2 ∧
    (M1.GetChecksum r w i).2 = (M2.GetChecksum r w i).2
  putJSON : ∀ r w i j v, sameError (M1.PutJSON r w i j v).1 (M2.PutJSON r w i j v).1 ∧
    (M1.PutJSON r w i j v).2 = (M2.PutJSON r w i j v).2
  putLayer : ∀ r w i p u n, sameError (M1.PutLayer r w i p u n).1 (M2.PutLayer r w i p u n).1 ∧
    (M1.PutLayer r w i p u n).2 = (M2.PutLayer r w i p u n).2
  putChecksum : ∀ r w i c b p,
    sameError (M1.PutChecksum r w i c b p).1 (M2.PutChecksum r w i c b p).1 ∧
    (M1.PutChecksum r w i c b p).2 = (M2.PutChecksum r w i c b p).2
  putAncestry : ∀ r w i, sameError (M1.PutAncestry r w i).1 (M2.PutAncestry r w i).1 ∧
    (M1.PutAncestry r w i).2 = (M2.PutAncestry r w i).2
  log : ∀ r w ev, sameError (M1.Log r w ev).1 (M2.Log r w ev).1 ∧
    (M1.Log r w ev).2 = (M2.Log r w ev).2

/-- Two operating systems that answer every call alike except for the text of
the errors they return. -/
structure SysAgreeUpToErrorText {W : Type} (S1 S2 : Sys W) : Prop where
  basePath : S1.BasePath = S2.BasePath
  isDirExists : ∀ w p, S1.IsDirExists w p = S2.IsDirExists w p
  mkdirAll : ∀ w p, (S1.MkdirAll w p).2 = (S2.MkdirAll w p).2
  stat : ∀ w p, sameError (S1.Stat w p) (S2.Stat w p)
  remove : ∀ w p, (S1.Remove w p).2 = (S2.Remove w p).2
  writeFile : ∀ w p d, sameError (S1.WriteFile w p d).1 (S2.WriteFile w p d).1 ∧
    (S1.WriteFile w p d).2 = (S2.WriteFile w p d).2
  readFile : ∀ w p, (S1.ReadFile w p).1 = (S2.ReadFile w p).1 ∧
    sameError (S1.ReadFile w p).2 (S2.ReadFile w p).2

/-- The image store `M` with the text of every error rewritten by `f`. -/
def retext {W : Type} (f : String → String) (M : ImageModel W) : ImageModel W :=
  { M with
    Has := fun r w i => (((M.Has r w i).1.1, (M.Has r w i).1.2.1, (M.Has r w i).1.2.2.map f),
      (M.Has r w i).2)
    GetJSON := fun r w i => (((M.GetJSON r w i).1.1, (M.GetJSON r w i).1.2.map f),
      (M.GetJSON r w i).2)
    GetChecksum := fun r w i => (((M.GetChecksum r w i).1.1, (M.GetChecksum r w i).1.2.map f),
      (M.GetChecksum r w i).2)
    PutJSON := fun r w i j v => ((M.PutJSON r w i j v).1.map f, (M.PutJSON r w i j v).2)
    PutLayer := fun r w i p u n => ((M.PutLayer r w i p u n).1.map f, (M.PutLayer r w i p u n).2)
    PutChecksum := fun r w i c b p =>
      ((M.PutChecksum r w i c b p).1.map f, (M.PutChecksum r w i c b p).2)
    PutAncestry := fun r w i => ((M.PutAncestry r w i).1.map f, (M.PutAncestry r w i).2)
    Log := fun r w ev => ((M.Log r w ev).1.map f, (M.Log r w ev).2) }

/-- The operating system `S` with the text of every error rewritten by `f`. -/
def retextSys {W : Type} (f : String → String) (S : Sys W) : Sys W :=
  { S with
    MkdirAll := fun w p => ((S.MkdirAll w p).1.map f, (S.MkdirAll w p).2)
    Stat := fun w p => (S.Stat w p).map f
    Remove := fun w p => ((S.Remove w p).1.map f, (S.Remove w p).2)
    WriteFile := fun w p d => ((S.WriteFile w p d).1.map f, (S.WriteFile w p d).2)
    ReadFile := fun w p => ((S.ReadFile w p).1, (S.ReadFile w p).2.map f) }

/-- The image store `M` with `image.Log` replaced by `L`. -/
def withLog {W : Type} (M : ImageModel W) (L : Image → W → LogEvent → GoError × Image × W) :
    ImageModel W :=
  { M with Log := L }

/-- An audit sink that is down: `image.Log` returns an error and records
nothing. -/
def failingLog {W : Type} : Image → W → LogEvent → GoError × Image × W :=
  fun r w _ => (some "audit sink unreachable", r, w)

/-! ## Names for the steps of the layer upload -/

/-- The layer file of an image: `fmt.Sprintf("%v/images/%v/layer", basePath, imageId)`. -/
def layerfileOf (basePath imageId : String) : String :=
  basePath ++ "/images/" ++ imageId ++ "/layer"

/-- The world in which `PutImageLayer` writes the layer file: the image
directory has been made if it was missing and an earlier layer file has been
removed. -/
def worldBeforeWrite {W : Type} (S : Sys W) (w : W) (imageId : String) : W :=
  let imagePath := S.BasePath ++ "/images/" ++ imageId
  let w1 := if S.IsDirExists w imagePath then w else (S.MkdirAll w imagePath).2
  if S.Stat w1 (layerfileOf S.BasePath imageId) = none then
    (S.Remove w1 (layerfileOf S.BasePath imageId)).2
  else w1

/-- The result of the `ioutil.WriteFile` call of `PutImageLayer`. -/
def writeStep {W : Type} (S : Sys W) (w : W) (req : Request) : GoError × W :=
  S.WriteFile (worldBeforeWrite S w (req.Param ":image_id"))
    (layerfileOf S.BasePath (req.Param ":image_id")) req.rawBody

/-- The result of the `image.PutLayer` call of `PutImageLayer`, made after a
write that succeeded. -/
def recordStep {W : Type} (M : ImageModel W) (S : Sys W) (w : W) (req : Request) :
    GoError × Image × W :=
  M.PutLayer Image.new (writeStep S w req).2 (req.Param ":image_id")
    (layerfileOf S.BasePath (req.Param ":image_id")) true req.rawBody.length

/-- The result of the `image.PutChecksum` call of `PutChecksum` for the
checksum and payload taken from the headers. -/
def checksumStep {W : Type} (M : ImageModel W) (w : W) (req : Request)
    (checksum payload : String) : GoError × Image × W :=
  M.PutChecksum Image.new w (req.Param ":image_id") checksum true payload

/-- The result of the `image.PutAncestry` call of `PutChecksum`, made after
`image.PutChecksum` succeeded. -/
def ancestryStep {W : Type} (M : ImageModel W) (w : W) (req : Request)
    (checksum payload : String) : GoError × Image × W :=
  M.PutAncestry (checksumStep M w req checksum payload).2.1
    (checksumStep M w req checksum payload).2.2 (req.Param ":image_id")

/-- The field of a header value after its first `:`, as `PutChecksum` takes
it: `strings.Split(value, ":")[1]`; `none` when there is no such field. -/
def headerField (req : Request) (key : String) : Option String :=
  (Split (req.Header key) ':')[1]?

/-- The failure response of `JSONOut(http.StatusBadRequest, m, nil)`. -/
def failure (m : String) : Outcome :=
  Outcome.response ⟨400, [], Body.jsonMessage m⟩

/-- The success response of the three upload steps: status 200, empty body. -/
def emptyOK : Outcome :=
  Outcome.response ⟨200, [], Body.text ""⟩

/-! ## Sample worlds -/

/-- An empty registry on a volume of ten bytes. -/
def emptyRegistry : Registry :=
  ⟨[], [], [], ⟨[], [], 10⟩, []⟩

/-- A request for image `a` that carries no checksum headers. -/
def bareRequest : Request :=
  ⟨[(":image_id", "a")], [], "", [1, 2, 3], []⟩

/-- A record for image `a` at `LayerStored`: registered, layer uploaded, no
parent, not yet checksummed. -/
def layerStoredImage : Image :=
  ⟨"a", "\x7b\"id\":\"a\"\x7d", none, "", "", "", "/data/images/a/layer", 3, true, false⟩

/-- The record of image `a` once `Checksummed`. -/
def checksummedImage : Image :=
  ⟨"a", "\x7b\"id\":\"a\"\x7d", none, "[\"a\"]", "aaa", "ppp", "/data/images/a/layer", 3, true,
    true⟩

/-- A record for image `b` at `LayerStored` whose parent `missing` has not
been registered. -/
def orphanImage : Image :=
  ⟨"b", "\x7b\"id\":\"b\",\"parent\":\"missing\"\x7d", some "missing", "", "", "",
    "/data/images/b/layer", 3, true, false⟩

/-- The blob store holding the three-byte layers of `a` and `b`, on a volume
of `capacity` bytes. -/
def sampleFiles (capacity : Nat) : FileSys :=
  ⟨[("/data/images/a/layer", [1, 2, 3]), ("/data/images/b/layer", [1, 2, 3])],
    ["/data/images/a", "/data/images/b", "/data/images", "/data"], capacity⟩

/-- A registry with `a` and `b` at `LayerStored` and room to spare. -/
def layerStoredRegistry : Registry :=
  ⟨[layerStoredImage, orphanImage], [], [], sampleFiles 100, []⟩

/-- A registry in which `a` is `Checksummed` and the volume holds eight
bytes, six of them taken. -/
def checksummedRegistry : Registry :=
  ⟨[checksummedImage, orphanImage], [], [], sampleFiles 8, []⟩

/-- An upload of three bytes for image `a`. -/
def smallUpload : Request :=
  ⟨[(":image_id", "a")], [], "", [7, 8, 9], []⟩

/-- An upload of six bytes for image `a`. -/
def largeUpload : Request :=
  ⟨[(":image_id", "a")], [], "", [9, 9, 9, 9, 9, 9], []⟩

/-- A checksum submission for image `id` declaring the digest of a
three-byte layer under `sampleConfig`. -/
def checksumRequest (id : String) : Request :=
  ⟨[(":image_id", id)],
    [("X-Docker-Checksum", "sha256:aaa"), ("X-Docker-Checksum-Payload", "sha256:ppp")],
    "", [], []⟩

/-- Two registries hold the same records: they differ at most in the blob
store. -/
def sameRecords (w1 w2 : Registry) : Prop :=
  w1.images = w2.images ∧ w1.repositories = w2.repositories ∧ w1.tags = w2.tags ∧
    w1.audit = w2.audit

/-- The failure response of `PutRepositoryImages`. -/
def finalizeFailure : Outcome :=
  Outcome.response ⟨400, [], Body.text "\x7b\"错误\":\"更新 Uploaded 标志错误\"\x7d"⟩

/-- The success response of `PutRepositoryImages`: status 204. -/
def finalizeOK : Outcome :=
  Outcome.response ⟨204, [], Body.text "\"\""⟩

/-- A finalize request for the repository `library/app`. -/
def finalizeRequest : Request :=
  ⟨[(":namespace", "library"), (":repo_name", "app")], [], "", [], []⟩

/-- A registry in which `library/app` has the tag `latest` on image `a`, which
is `Checksummed`. -/
def taggedRegistry : Registry :=
  ⟨[checksummedImage, orphanImage],
    [⟨"library", "app", "[]", ["library/app/tags/latest"], ["a"], false⟩],
    [⟨"library/app/tags/latest", "latest", "a"⟩], sampleFiles 100, []⟩

/-! ## The tag object, as the interface describes it -/

/-- One entry of the tag object: `"name":"id"`. -/
def tagEntry (name id : String) : String :=
  "\"" ++ name ++ "\":\"" ++ id ++ "\""

/-- Texts separated by single commas: no leading and no trailing comma. -/
def commaSeparated : List String → String
  | [] => ""
  | [e] => e
  | e :: f :: rest => e ++ "," ++ commaSeparated (f :: rest)

/-- Texts each preceded by a comma. -/
def commaPrefixed : List String → String
  | [] => ""
  | e :: rest => "," ++ e ++ commaPrefixed rest

/-- The JSON object that maps each tag name to its image id, in list order. -/
def tagsBody (entries : List (String × String)) : String :=
  "\x7b" ++ commaSeparated (entries.map (fun e => tagEntry e.1 e.2)) ++ "\x7d"

/-- The name and image id the tag with id `uuid` resolves to. -/
def resolvedTag {W : Type} (M : RepoModel W) (w : W) (uuid : String) : String × String :=
  ((M.GetByUUID Tag.new w uuid).2.Name, (M.GetByUUID Tag.new w uuid).2.ImageId)

/-- The body `GetRepositoryTags` sends when the repository does not exist. -/
def noRepositoryText (nspace repository : String) : String :=
  "[API 用户]  " ++ nspace ++ "/" ++ repository ++ " 不存在"

/-- The body `GetRepositoryTags` sends when a tag does not resolve. -/
def noTagText (nspace repository : String) : String :=
  "[API 用户]  " ++ nspace ++ "/" ++ repository ++ " Tags 不存在"

/-- A request for the tags of `library/app`. -/
def tagsRequest : Request :=
  ⟨[(":namespace", "library"), (":repo_name", "app")], [], "", [], []⟩

/-- A registry in which `library/app` has the tags `latest` and `v1`. -/
def twoTagsRegistry : Registry :=
  ⟨[checksummedImage, orphanImage],
    [⟨"library", "app", "[]", ["library/app/tags/latest", "library/app/tags/v1"], ["a", "b"],
      false⟩],
    [⟨"library/app/tags/latest", "latest", "a"⟩, ⟨"library/app/tags/v1", "v1", "b"⟩],
    sampleFiles 100, []⟩

/-- A request that sets the tag `v2` of `library/app` to image `a`. -/
def tagRequest : Request :=
  ⟨[(":namespace", "library"), (":repo_name", "app"), (":tag", "v2")], [], "\"a\"", [], []⟩

/-- The session after a `PutRepository` call by `alice`. -/
def aliceSession : Session :=
  [("username", SessionValue.str "alice"), ("namespace", SessionValue.str "library"),
    ("repository", SessionValue.str "app"), ("access", SessionValue.str "write")]

/-- A registry in which image `a` is registered with a layer path at which the
blob store holds no file. -/
def missingBlobRegistry : Registry :=
  ⟨[checksummedImage], [], [], ⟨[], [], 10⟩, []⟩

/-- An error text rewritten to carry a storage location. -/
def withStoragePath (e : String) : String :=
  "/srv/registry/store: " ++ e

/-- A registry in which `library/app` has the tag `latest` on image `b`, whose
checksum step was never called. -/
def prematureRegistry : Registry :=
  ⟨[checksummedImage, orphanImage],
    [⟨"library", "app", "[]", ["library/app/tags/latest"], ["b"], false⟩],
    [⟨"library/app/tags/latest", "latest", "b"⟩], sampleFiles 100, []⟩

/-! ## Image stores that leave the blob store alone -/

/-- The image store records a layer and logs without touching the files of the
blob store. -/
def KeepsFiles (M : ImageModel Registry) : Prop :=
  (∀ r w i p u n, (M.PutLayer r w i p u n).2.2.fs = w.fs) ∧
    (∀ r w ev, (M.Log r w ev).2.2.fs = w.fs)

/-! ## What `PutChecksum` submits -/

/-- The part of a text before its first `:` (the whole text when it has
none). -/
def upToColon (v : String) : String :=
  String.mk (v.toList.takeWhile (fun c => c != ':'))

/-- An image store that does nothing but record the arguments of each
`image.PutChecksum` call, in order: image id, checksum, flag, payload. -/
def recordingModel : ImageModel (List (String × String × Bool × String)) where
  APIVERSION_V1 := 1
  ACTION_PUT_IMAGES_JSON := 1
  ACTION_PUT_IMAGES_LAYER := 2
  ACTION_PUT_IMAGES_CHECKSUM := 3
  LEVELINFORMATIONAL := 6
  TYPE_APIV1 := 1
  Has := fun r _ _ => ((false, "", none), r)
  GetJSON := fun r _ _ => (("", none), r)
  GetChecksum := fun r _ _ => (("", none), r)
  PutJSON := fun r w _ _ _ => (none, r, w)
  PutLayer := fun r w _ _ _ _ => (none, r, w)
  PutChecksum := fun r w i c b p => (none, r, w ++ [(i, c, b, p)])
  PutAncestry := fun r w _ => (none, r, w)
  Log := fun r w _ => (none, r, w)

/-- A checksum submission for image `a` whose checksum value itself contains
a `:`. -/
def colonRequest : Request :=
  ⟨[(":image_id", "a")],
    [("X-Docker-Checksum", "tarsum:ab:cd"), ("X-Docker-Checksum-Payload", "sha256:ppp")],
    "", [], []⟩

/-! ## Requests for `PutTag` without an image id -/

/-- A `PutTag` request for `library/app:v2` with an empty body. -/
def emptyTagRequest : Request :=
  ⟨[(":namespace", "library"), (":repo_name", "app"), (":tag", "v2")], [], "", [], []⟩

/-- A `PutTag` request for `library/app:v2` whose quoted id has a character
outside the alphanumerics. -/
def dashedTagRequest : Request :=
  ⟨[(":namespace", "library"), (":repo_name", "app"), (":tag", "v2")], [], "\"a-b\"", [], []⟩

/-! ## The length header of a layer download -/

/-- The value of the response header `key`, as last set. -/
def Response.header (r : Response) (key : String) : Option String :=
  r.headers.reverse.lookup key

/-- A registry whose blob store holds the three-byte layer of the checksummed
image `a`. -/
def downloadRegistry : Registry :=
  ⟨[checksummedImage], [], [], sampleFiles 100, []⟩

/-! ## Properties -/

section Lemmas

variable {W : Type}

theorem splitChars_ne_nil (sep : Char) (l : List Char) : splitChars sep l ≠ [] := by
  induction l with
  | nil => simp [splitChars]
  | cons c cs ih =>
    unfold splitChars
    split
    · simp
    · split <;> simp

/-- Without the separator there is one field: the whole input. -/
theorem splitChars_of_not_mem (sep : Char) (l : List Char) (h : sep ∉ l) :
    splitChars sep l = [l] := by
  induction l with
  | nil => simp [splitChars]
  | cons c cs ih =>
    have hc : c ≠ sep := fun e => h (by simp [e])
    have hcs : sep ∉ cs := fun e => h (by simp [e])
    simp [splitChars, hc, ih hcs]

theorem Split_of_not_mem (s : String) (sep : Char) (h : sep ∉ s.toList) :
    (Split s sep)[1]? = none := by
  unfold Split
  rw [splitChars_of_not_mem sep s.toList h]
  rfl

end Lemmas

section Steps

variable {W : Type}

theorem PutImageLayer_write_error (M : ImageModel W) (S : Sys W) (w : W) (req : Request)
    (e : String) (h : (writeStep S w req).1 = some e) :
    PutImageLayer M S w req =
      ⟨failure "Put Image Layer File Error", (writeStep S w req).2,
        ["[REGISTRY API V1] Put Image Layer File Error: " ++ e]⟩ := by
  simp only [writeStep, worldBeforeWrite, layerfileOf] at h ⊢
  simp [PutImageLayer, h, JSONOut, StatusBadRequest, failure]

theorem PutImageLayer_record_error (M : ImageModel W) (S : Sys W) (w : W) (req : Request)
    (e : String) (h1 : (writeStep S w req).1 = none) (h2 : (recordStep M S w req).1 = some e) :
    PutImageLayer M S w req =
      ⟨failure "Put Image Layer File Data Error", (recordStep M S w req).2.2,
        ["[REGISTRY API V1] Put Image Layer File Data Error: " ++ e]⟩ := by
  simp only [recordStep, writeStep, worldBeforeWrite, layerfileOf] at h1 h2 ⊢
  simp [PutImageLayer, h1, h2, JSONOut, StatusBadRequest, failure]

theorem PutImageLayer_ok (M : ImageModel W) (S : Sys W) (w : W) (req : Request)
    (h1 : (writeStep S w req).1 = none) (h2 : (recordStep M S w req).1 = none) :
    (PutImageLayer M S w req).outcome = emptyOK ∧
    (PutImageLayer M S w req).world =
      (M.Log (recordStep M S w req).2.1 (recordStep M S w req).2.2
        ⟨M.ACTION_PUT_IMAGES_LAYER, M.LEVELINFORMATIONAL, M.TYPE_APIV1,
          (recordStep M S w req).2.1.Id, req.headerMemo⟩).2.2 := by
  simp only [recordStep, writeStep, worldBeforeWrite, layerfileOf] at h1 h2 ⊢
  simp [PutImageLayer, h1, h2, StatusOK, emptyOK]

theorem PutChecksum_checksum_error (M : ImageModel W) (w : W) (req : Request)
    (checksum payload e : String)
    (hc : headerField req "X-Docker-Checksum" = some checksum)
    (hp : headerField req "X-Docker-Checksum-Payload" = some payload)
    (h : (checksumStep M w req checksum payload).1 = some e) :
    PutChecksum M w req =
      ⟨failure "Put Image Checksum & Payload Error", (checksumStep M w req checksum payload).2.2,
        ["[REGISTRY API V1] Put Image Checksum & Payload Error: " ++ e]⟩ := by
  simp only [headerField, checksumStep] at hc hp h ⊢
  simp [PutChecksum, hc, hp, h, JSONOut, StatusBadRequest, failure]

theorem PutChecksum_ancestry_error (M : ImageModel W) (w : W) (req : Request)
    (checksum payload e : String)
    (hc : headerField req "X-Docker-Checksum" = some checksum)
    (hp : headerField req "X-Docker-Checksum-Payload" = some payload)
    (h1 : (checksumStep M w req checksum payload).1 = none)
    (h2 : (ancestryStep M w req checksum payload).1 = some e) :
    PutChecksum M w req =
      ⟨failure "Put Image Ancestry Error", (ancestryStep M w req checksum payload).2.2,
        ["[REGISTRY API V1] Put Image Ancestry Error: " ++ e]⟩ := by
  simp only [headerField, checksumStep, ancestryStep] at hc hp h1 h2 ⊢
  simp [PutChecksum, hc, hp, h1, h2, JSONOut, StatusBadRequest, failure]

theorem PutChecksum_ok (M : ImageModel W) (w : W) (req : Request)
    (checksum payload : String)
    (hc : headerField req "X-Docker-Checksum" = some checksum)
    (hp : headerField req "X-Docker-Checksum-Payload" = some payload)
    (h1 : (checksumStep M w req checksum payload).1 = none)
    (h2 : (ancestryStep M w req checksum payload).1 = none) :
    (PutChecksum M w req).outcome = emptyOK ∧
    (PutChecksum M w req).world =
      (M.Log (ancestryStep M w req checksum payload).2.1
        (ancestryStep M w req checksum payload).2.2
        ⟨M.ACTION_PUT_IMAGES_CHECKSUM, M.LEVELINFORMATIONAL, M.TYPE_APIV1,
          (ancestryStep M w req checksum payload).2.1.Id, req.headerMemo⟩).2.2 := by
  simp only [headerField, checksumStep, ancestryStep] at hc hp h1 h2 ⊢
  simp [PutChecksum, hc, hp, h1, h2, StatusOK, emptyOK]

end Steps

/-- Claim C7 (logging is best-effort): for every image store `M`, every
behaviour `L` of `image.Log` (succeeding or returning an error) and every
request, whenever the store operations of the call succeed, each of
`PutImageJSON`, `PutImageLayer` and `PutChecksum` answers with status 200 and
an empty body; the response is the same for every `L`. -/
theorem audit_failure_does_not_fail_the_call {W : Type} (M : ImageModel W) (S : Sys W)
    (L : Image → W → LogEvent → GoError × Image × W) (w : W) (req : Request) :
    ((M.PutJSON Image.new w (req.Param ":image_id") req.copyBody M.APIVERSION_V1).1 = none →
      (PutImageJSON (withLog M L) w req).outcome = emptyOK) ∧
    ((writeStep S w req).1 = none → (recordStep M S w req).1 = none →
      (PutImageLayer (withLog M L) S w req).outcome = emptyOK) ∧
    (∀ checksum payload : String,
      headerField req "X-Docker-Checksum" = some checksum →
      headerField req "X-Docker-Checksum-Payload" = some payload →
      (checksumStep M w req checksum payload).1 = none →
      (ancestryStep M w req checksum payload).1 = none →
      (PutChecksum (withLog M L) w req).outcome = emptyOK) := by
  refine ⟨?_, ?_, ?_⟩
  · intro h
    simp [PutImageJSON, withLog, h, StatusOK, emptyOK]
  · intro h1 h2
    exact (PutImageLayer_ok (withLog M L) S w req h1 h2).1
  · intro checksum payload hc hp h1 h2
    exact (PutChecksum_ok (withLog M L) w req checksum payload hc hp h1 h2).1

section Agreement

variable {W : Type} {M1 M2 : ImageModel W} {S1 S2 : Sys W}

theorem sameError_cases {a b : GoError} (h : sameError a b) :
    (a = none ∧ b = none) ∨ (∃ x y, a = some x ∧ b = some y) := by
  unfold sameError at h
  cases a <;> cases b <;> simp at h ⊢

theorem GetImageJSON_agree (A : AgreeUpToErrorText M1 M2) (w : W) (req : Request) :
    (GetImageJSON M1 w req).outcome = (GetImageJSON M2 w req).outcome := by
  obtain ⟨h1, h2, h3⟩ := A.getJSON Image.new w (req.Param ":image_id")
  obtain ⟨k1, k2, k3⟩ := A.getChecksum (M2.GetJSON Image.new w (req.Param ":image_id")).2 w
    (req.Param ":image_id")
  unfold GetImageJSON
  simp only [h1, h3, k1]
  rcases sameError_cases h2 with ⟨a, b⟩ | ⟨x, y, a, b⟩
  · rcases sameError_cases k2 with ⟨c, d⟩ | ⟨x, y, c, d⟩ <;> simp [a, b, c, d]
  · simp [a, b]

theorem PutImageJSON_agree (A : AgreeUpToErrorText M1 M2) (w : W) (req : Request) :
    (PutImageJSON M1 w req).outcome = (PutImageJSON M2 w req).outcome := by
  obtain ⟨h1, h2⟩ := A.putJSON Image.new w (req.Param ":image_id") req.copyBody
    M2.APIVERSION_V1
  unfold PutImageJSON
  simp only [A.version]
  rcases sameError_cases h1 with ⟨a, b⟩ | ⟨x, y, a, b⟩ <;> simp [a, b]

theorem worldBeforeWrite_agree (B : SysAgreeUpToErrorText S1 S2) (w : W) (i : String) :
    worldBeforeWrite S1 w i = worldBeforeWrite S2 w i := by
  unfold worldBeforeWrite
  simp only [B.basePath, B.isDirExists, B.mkdirAll, B.remove]
  have h := B.stat (if S2.IsDirExists w (S2.BasePath ++ "/images/" ++ i) = true then w
    else (S2.MkdirAll w (S2.BasePath ++ "/images/" ++ i)).2) (layerfileOf S2.BasePath i)
  unfold sameError at h
  by_cases c : S2.Stat (if S2.IsDirExists w (S2.BasePath ++ "/images/" ++ i) = true then w
    else (S2.MkdirAll w (S2.BasePath ++ "/images/" ++ i)).2) (layerfileOf S2.BasePath i) = none
  · rw [if_pos c, if_pos (h.2 c)]
  · rw [if_neg c, if_neg (fun x => c (h.1 x))]

theorem writeStep_agree (B : SysAgreeUpToErrorText S1 S2) (w : W) (req : Request) :
    sameError (writeStep S1 w req).1 (writeStep S2 w req).1 ∧
    (writeStep S1 w req).2 = (writeStep S2 w req).2 := by
  unfold writeStep
  rw [worldBeforeWrite_agree B, B.basePath]
  exact B.writeFile _ _ _

theorem recordStep_agree (A : AgreeUpToErrorText M1 M2) (B : SysAgreeUpToErrorText S1 S2)
    (w : W) (req : Request) :
    sameError (recordStep M1 S1 w req).1 (recordStep M2 S2 w req).1 ∧
    (recordStep M1 S1 w req).2 = (recordStep M2 S2 w req).2 := by
  unfold recordStep
  rw [(writeStep_agree B w req).2, B.basePath]
  exact A.putLayer _ _ _ _ _ _

theorem PutImageLayer_agree (A : AgreeUpToErrorText M1 M2) (B : SysAgreeUpToErrorText S1 S2)
    (w : W) (req : Request) :
    (PutImageLayer M1 S1 w req).outcome = (PutImageLayer M2 S2 w req).outcome := by
  rcases sameError_cases (writeStep_agree B w req).1 with ⟨a, b⟩ | ⟨x, y, a, b⟩
  · rcases sameError_cases (recordStep_agree A B w req).1 with ⟨c, d⟩ | ⟨x, y, c, d⟩
    · rw [(PutImageLayer_ok M1 S1 w req a c).1, (PutImageLayer_ok M2 S2 w req b d).1]
    · rw [PutImageLayer_record_error M1 S1 w req x a c,
        PutImageLayer_record_error M2 S2 w req y b d]
  · rw [PutImageLayer_write_error M1 S1 w req x a, PutImageLayer_write_error M2 S2 w req y b]

theorem PutChecksum_agree (A : AgreeUpToErrorText M1 M2) (w : W) (req : Request) :
    (PutChecksum M1 w req).outcome = (PutChecksum M2 w req).outcome := by
  unfold PutChecksum
  cases hc : (Split (req.Header "X-Docker-Checksum") ':')[1]? with
  | none => rfl
  | some checksum =>
    cases hp : (Split (req.Header "X-Docker-Checksum-Payload") ':')[1]? with
    | none => rfl
    | some payload =>
      obtain ⟨h1, h2⟩ := A.putChecksum Image.new w (req.Param ":image_id") checksum true payload
      obtain ⟨k1, k2⟩ := A.putAncestry
        (M2.PutChecksum Image.new w (req.Param ":image_id") checksum true payload).2.1
        (M2.PutChecksum Image.new w (req.Param ":image_id") checksum true payload).2.2
        (req.Param ":image_id")
      simp only [h2]
      rcases sameError_cases h1 with ⟨a, b⟩ | ⟨x, y, a, b⟩
      · rcases sameError_cases k1 with ⟨c, d⟩ | ⟨x, y, c, d⟩ <;> simp [a, b, c, d]
      · simp [a, b]

theorem GetImageAncestry_agree (A : AgreeUpToErrorText M1 M2) (w : W) (req : Request) :
    (GetImageAncestry M1 w req).outcome = (GetImageAncestry M2 w req).outcome := by
  obtain ⟨h1, _, h3, h4⟩ := A.has Image.new w (req.Param ":image_id")
  unfold GetImageAncestry
  simp only [h1, h4]
  rcases sameError_cases h3 with ⟨a, b⟩ | ⟨x, y, a, b⟩ <;> simp [a, b]

theorem GetImageLayer_agree (A : AgreeUpToErrorText M1 M2) (B : SysAgreeUpToErrorText S1 S2)
    (w : W) (req : Request) :
    (GetImageLayer M1 S1 w req).outcome = (GetImageLayer M2 S2 w req).outcome := by
  obtain ⟨h1, _, h3, h4⟩ := A.has Image.new w (req.Param ":image_id")
  have k1 := B.stat w (M2.Has Image.new w (req.Param ":image_id")).2.Path
  obtain ⟨k2, k3⟩ := B.readFile w (M2.Has Image.new w (req.Param ":image_id")).2.Path
  unfold GetImageLayer
  simp only [h1, h4, k2]
  rcases sameError_cases h3 with ⟨a, b⟩ | ⟨x, y, a, b⟩
  · by_cases hh : (M2.Has Image.new w (req.Param ":image_id")).1.1 = false
    · simp [a, b, hh]
    · rcases sameError_cases k1 with ⟨c, d⟩ | ⟨x, y, c, d⟩
      · rcases sameError_cases k3 with ⟨e, f⟩ | ⟨x, y, e, f⟩ <;> simp [a, b, c, d, e, f, hh]
      · simp [a, b, c, d, hh]
  · simp [a, b]

theorem agree_retext (f : String → String) (M : ImageModel W) :
    AgreeUpToErrorText M (retext f M) := by
  constructor <;> intros <;> simp [retext, sameError]

theorem agree_retextSys (f : String → String) (S : Sys W) :
    SysAgreeUpToErrorText S (retextSys f S) := by
  constructor <;> intros <;> simp [retextSys, sameError]

end Agreement

section Store

theorem findImage_id {images : List Image} {id : String} {img : Image}
    (h : findImage images id = some img) : img.Id = id := by
  unfold findImage at h
  have := List.find?_some h
  simpa using this

theorem findImage_saveImage (w : Registry) (img : Image) :
    findImage (saveImage w img).images img.Id = some img := by
  simp [findImage, saveImage]

theorem findImage_saveImage_ne (w : Registry) (img : Image) (id : String) (h : id ≠ img.Id) :
    findImage (saveImage w img).images id = findImage w.images id := by
  have h2 : (img.Id == id) = false := by
    simp only [beq_eq_false_iff_ne]
    exact fun e => h e.symm
  simp only [findImage, saveImage, List.find?_cons, h2, List.find?_filter]
  congr 1
  funext a
  by_cases c : a.Id = id
  · simp [c, h]
  · simp [c]

theorem WriteFile_lookup (fs : FileSys) (p : String) (d : Bytes)
    (h : (fs.WriteFile p d).1 = none) : (fs.WriteFile p d).2.files.lookup p = some d := by
  unfold FileSys.WriteFile at h ⊢
  by_cases h1 : fs.isDir p = true
  · rw [if_pos h1] at h
    simp at h
  · rw [if_neg h1] at h ⊢
    by_cases h2 : (parentOf p != "" && !fs.isDir (parentOf p)) = true
    · rw [if_pos h2] at h
      simp at h
    · rw [if_neg h2] at h ⊢
      simp only [] at h ⊢
      by_cases h3 : d.length ≤ fs.capacity - usedBytes (fs.files.filter (fun f => f.1 != p))
      · rw [if_pos h3]
        simp [List.lookup]
      · rw [if_neg h3] at h
        simp at h

/-- What a successful layer upload leaves in the registry. -/
theorem PutImageLayer_spec_ok (C : Config) (w : Registry) (req : Request)
    (r : Response)
    (hr : (PutImageLayer (specImageModel C) (registrySys C) w req).outcome = Outcome.response r)
    (hs : r.status = 200) :
    ∃ img : Image,
      findImage (PutImageLayer (specImageModel C) (registrySys C) w req).world.images
        (req.Param ":image_id") = some img ∧
      img.Path = layerfileOf C.BasePath (req.Param ":image_id") ∧
      img.Uploaded = true ∧ img.Size = req.rawBody.length ∧
      (PutImageLayer (specImageModel C) (registrySys C) w req).world.fs.files.lookup
        (layerfileOf C.BasePath (req.Param ":image_id")) = some req.rawBody := by
  rcases hw : (writeStep (registrySys C) w req).1 with _ | e
  · rcases hp : (recordStep (specImageModel C) (registrySys C) w req).1 with _ | e
    · have hok := PutImageLayer_ok (specImageModel C) (registrySys C) w req hw hp
      rw [hok.2]
      have hfile := WriteFile_lookup _ _ _ hw
      simp only [recordStep, specImageModel, specPutLayer] at hp ⊢
      cases hf : findImage (writeStep (registrySys C) w req).2.images (req.Param ":image_id") with
      | none => simp [hf] at hp
      | some old =>
        have hold := findImage_id hf
        simp only [hf, specLog]
        refine ⟨{ old with Path := layerfileOf C.BasePath (req.Param ":image_id"),
                           Uploaded := true, Size := req.rawBody.length }, ?_, rfl, rfl, rfl, ?_⟩
        · have := findImage_saveImage (writeStep (registrySys C) w req).2
            { old with Path := layerfileOf C.BasePath (req.Param ":image_id"),
                       Uploaded := true, Size := req.rawBody.length }
          have key : findImage (saveImage (writeStep (registrySys C) w req).2
              { old with Path := layerfileOf C.BasePath (req.Param ":image_id"),
                         Uploaded := true, Size := req.rawBody.length }).images
              (req.Param ":image_id") = findImage (saveImage (writeStep (registrySys C) w req).2
              { old with Path := layerfileOf C.BasePath (req.Param ":image_id"),
                         Uploaded := true, Size := req.rawBody.length }).images old.Id := by
            rw [hold]
          exact key.trans this
        · exact hfile
    · rw [PutImageLayer_record_error _ _ _ _ e hw hp] at hr
      simp [failure] at hr
      subst hr
      simp at hs
  · rw [PutImageLayer_write_error _ _ _ _ e hw] at hr
    simp [failure] at hr
    subst hr
    simp at hs

end Store

/-- Claim C1 (layer round trip), with `image.PutLayer` and `image.Has` as the
design document describes them: for every registry `w` (whatever its blob
store holds, an earlier layer file of the image included), every upload
request `put` and every read request `get` for the same image id, if
`PutImageLayer` answers with status 200 then `GetImageLayer`, run on the
world the upload left, answers 200 with a body that is exactly the uploaded
bytes: the file written at `basePath/images/i/layer` is the path recorded on
the image and the file read back. -/
theorem layer_round_trip (C : Config) (w : Registry) (put get : Request)
    (hid : get.Param ":image_id" = put.Param ":image_id")
    (hput : ∃ r, (PutImageLayer (specImageModel C) (registrySys C) w put).outcome
      = Outcome.response r ∧ r.status = 200) :
    (GetImageLayer (specImageModel C) (registrySys C)
        (PutImageLayer (specImageModel C) (registrySys C) w put).world get).outcome
      = Outcome.response
          ⟨200,
            [("Content-Type", "application/octet-stream"),
             ("Content-Transfer-Encoding", "binary"),
             ("Content-Length", decimal put.rawBody.length)],
            Body.bytes put.rawBody⟩ := by
  obtain ⟨r, hr, hs⟩ := hput
  obtain ⟨img, hfind, hpath, _, _, hfile⟩ := PutImageLayer_spec_ok C w put r hr hs
  generalize (PutImageLayer (specImageModel C) (registrySys C) w put).world = w2 at hfind hfile
  unfold GetImageLayer
  simp [specImageModel, specHas, hid, hfind, hpath, registrySys, FileSys.Stat, FileSys.isFile,
    FileSys.ReadFile, hfile, StatusOK, setHeader, List.lookup]

section Records

theorem worldBeforeWrite_sameRecords (C : Config) (w : Registry) (i : String) :
    sameRecords (worldBeforeWrite (registrySys C) w i) w := by
  unfold worldBeforeWrite sameRecords registrySys
  simp only []
  split <;> split <;> simp

theorem writeStep_sameRecords (C : Config) (w : Registry) (req : Request) :
    sameRecords (writeStep (registrySys C) w req).2 w := by
  have h := worldBeforeWrite_sameRecords C w (req.Param ":image_id")
  unfold sameRecords at h ⊢
  unfold writeStep
  simp only [registrySys] at h ⊢
  exact h

end Records

/-- Claim C6 as stated fails: image `a` is `Checksummed` with the layer
`[1, 2, 3]`; an upload of six bytes on a volume with room for five answers
400 "Put Image Layer File Error", the record of `a` is unchanged and still
`Checksummed`, and the blob it points at is now the truncated `[9, 9, 9, 9, 9]`:
the earlier file was removed before the write. -/
theorem failed_upload_loses_the_blob :
    storedLayer checksummedRegistry checksummedImage = some [1, 2, 3] ∧
    (PutImageLayer (specImageModel sampleConfig) (registrySys sampleConfig) checksummedRegistry
      largeUpload).outcome = failure "Put Image Layer File Error" ∧
    findImage (PutImageLayer (specImageModel sampleConfig) (registrySys sampleConfig)
      checksummedRegistry largeUpload).world.images "a" = some checksummedImage ∧
    storedLayer (PutImageLayer (specImageModel sampleConfig) (registrySys sampleConfig)
      checksummedRegistry largeUpload).world checksummedImage = some [9, 9, 9, 9, 9] := by
  decide

/-- Claim C6 amended: a failed layer upload leaves the records of the
registry, not the blob.  (1) Whatever the image store does, if the file write
fails then `PutImageLayer` answers 400 "Put Image Layer File Error" and the
image, repository and tag records and the audit events are exactly what they
were before the call.  (2) With `image.PutLayer` as the design document
describes it, the same holds for every run that does not answer 200. -/
theorem failed_upload_keeps_the_records (C : Config) (M : ImageModel Registry) (w : Registry)
    (req : Request) :
    (∀ e, (writeStep (registrySys C) w req).1 = some e →
      (PutImageLayer M (registrySys C) w req).outcome = failure "Put Image Layer File Error" ∧
      sameRecords (PutImageLayer M (registrySys C) w req).world w) ∧
    ((PutImageLayer (specImageModel C) (registrySys C) w req).outcome ≠ emptyOK →
      sameRecords (PutImageLayer (specImageModel C) (registrySys C) w req).world w) := by
  constructor
  · intro e he
    rw [PutImageLayer_write_error M (registrySys C) w req e he]
    exact ⟨rfl, writeStep_sameRecords C w req⟩
  · intro hne
    rcases hw : (writeStep (registrySys C) w req).1 with _ | e
    · rcases hp : (recordStep (specImageModel C) (registrySys C) w req).1 with _ | e
      · exact absurd (PutImageLayer_ok _ _ w req hw hp).1 hne
      · rw [PutImageLayer_record_error _ _ w req e hw hp]
        have hs := writeStep_sameRecords C w req
        simp only [recordStep, specImageModel, specPutLayer] at hp ⊢
        cases hf : findImage (writeStep (registrySys C) w req).2.images (req.Param ":image_id") with
        | none => simpa [hf] using hs
        | some old => simp [hf] at hp
    · rw [PutImageLayer_write_error _ _ w req e hw]
      exact writeStep_sameRecords C w req

theorem failed_upload_keeps_the_records_witness :
    (PutImageLayer (specImageModel sampleConfig) (registrySys sampleConfig) checksummedRegistry
      largeUpload).outcome ≠ emptyOK ∧
    sameRecords (PutImageLayer (specImageModel sampleConfig) (registrySys sampleConfig)
      checksummedRegistry largeUpload).world checksummedRegistry :=
  ⟨by decide,
    (failed_upload_keeps_the_records sampleConfig (specImageModel sampleConfig)
      checksummedRegistry largeUpload).2 (by decide)⟩

section Ancestry

theorem ancestryWalk_congr (im1 im2 : List Image)
    (h : ∀ id, (findImage im1 id).map Image.Parent = (findImage im2 id).map Image.Parent)
    (fuel : Nat) (id : String) (seen : List String) :
    ancestryWalk im1 fuel id seen = ancestryWalk im2 fuel id seen := by
  induction fuel generalizing id seen with
  | zero => rfl
  | succ n ih =>
    unfold ancestryWalk
    have hid := h id
    by_cases hs : seen.contains id = true
    · rw [if_pos hs, if_pos hs]
    · rw [if_neg hs, if_neg hs]
      cases h1 : findImage im1 id with
      | none =>
        cases h2 : findImage im2 id with
        | none => rfl
        | some b => rw [h1, h2] at hid; simp at hid
      | some a =>
        cases h2 : findImage im2 id with
        | none => rw [h1, h2] at hid; simp at hid
        | some b =>
          rw [h1, h2] at hid
          simp only [Option.map_some', Option.some.injEq] at hid
          simp only [hid]
          cases b.Parent with
          | none => rfl
          | some p => exact ih p (seen ++ [id])

theorem parents_saveImage (w : Registry) (old img : Image)
    (hold : findImage w.images old.Id = some old) (hid : img.Id = old.Id)
    (hpar : img.Parent = old.Parent) (id : String) :
    (findImage (saveImage w img).images id).map Image.Parent
      = (findImage w.images id).map Image.Parent := by
  by_cases c : id = img.Id
  · subst c
    rw [findImage_saveImage, hid, hold]
    simp [hpar]
  · rw [findImage_saveImage_ne w img id c]

theorem findImage_saveImage_of_id (w : Registry) (img : Image) (id : String)
    (h : img.Id = id) : findImage (saveImage w img).images id = some img := by
  subst h
  exact findImage_saveImage w img

end Ancestry

/-- Claim C3 as stated fails: image `b` has stored layer bytes `[1, 2, 3]`, the
declared checksum `aaa` is the digest of those bytes, and still `PutChecksum`
answers 400 "Put Image Ancestry Error", because the parent of `b` is not
registered and the ancestry step that follows the checksum step fails. -/
theorem matching_checksum_can_fail :
    findImage layerStoredRegistry.images "b" = some orphanImage ∧
    storedLayer layerStoredRegistry orphanImage = some [1, 2, 3] ∧
    sampleConfig.digest [1, 2, 3] = "aaa" ∧
    headerField (checksumRequest "b") "X-Docker-Checksum" = some "aaa" ∧
    (PutChecksum (specImageModel sampleConfig) layerStoredRegistry (checksumRequest "b")).outcome
      = failure "Put Image Ancestry Error" := by
  decide

/-- Claim C3 amended, with `image.PutChecksum` and `image.PutAncestry` as the
design document describes them: for an image with stored layer bytes `s` and
the checksum `c` and payload `p` taken from the headers, `PutChecksum` answers
200 with an empty body if and only if `c` matches the digest of `s` and the
ancestry of the image can be built; when it answers 200 the stored record is
marked checksummed and holds `c` and `p`; when `c` does not match the digest
it answers 400, the error is `ChecksumMismatch`, and the registry is exactly
what it was (not marked checksummed, ancestry not written). -/
theorem checksum_law (C : Config) (w : Registry) (req : Request) (img : Image) (s : Bytes)
    (c p : String)
    (himg : findImage w.images (req.Param ":image_id") = some img)
    (hlayer : storedLayer w img = some s)
    (hc : headerField req "X-Docker-Checksum" = some c)
    (hp : headerField req "X-Docker-Checksum-Payload" = some p) :
    ((PutChecksum (specImageModel C) w req).outcome = emptyOK ↔
      validate C s c = true ∧
        ∃ ids, ancestryWalk w.images C.maxDepth (req.Param ":image_id") [] = Except.ok ids) ∧
    ((PutChecksum (specImageModel C) w req).outcome = emptyOK →
      ∃ img2, findImage (PutChecksum (specImageModel C) w req).world.images
          (req.Param ":image_id") = some img2 ∧
        img2.Checksumed = true ∧ img2.Checksum = c ∧ img2.Payload = p) ∧
    (validate C s c = false →
      PutChecksum (specImageModel C) w req =
        ⟨failure "Put Image Checksum & Payload Error", w,
          ["[REGISTRY API V1] Put Image Checksum & Payload Error: " ++
            ("ChecksumMismatch: " ++ req.Param ":image_id")]⟩) := by
  have hidimg := findImage_id himg
  by_cases hv : validate C s c = true
  · -- the checksum matches: `image.PutChecksum` stores it and sets the flag
    have hstep : checksumStep (specImageModel C) w req c p =
        (none, { img with Checksum := c, Payload := p, Checksumed := true },
          saveImage w { img with Checksum := c, Payload := p, Checksumed := true }) := by
      simp [checksumStep, specImageModel, specPutChecksum, himg, hlayer, hv]
    have hfind1 : findImage
        (saveImage w { img with Checksum := c, Payload := p, Checksumed := true }).images
        (req.Param ":image_id")
        = some { img with Checksum := c, Payload := p, Checksumed := true } :=
      findImage_saveImage_of_id w _ _ hidimg
    have hwalk : ancestryWalk
        (saveImage w { img with Checksum := c, Payload := p, Checksumed := true }).images
        C.maxDepth (req.Param ":image_id") []
        = ancestryWalk w.images C.maxDepth (req.Param ":image_id") [] :=
      ancestryWalk_congr _ _
        (parents_saveImage w img { img with Checksum := c, Payload := p, Checksumed := true }
          (by rw [hidimg]; exact himg) rfl rfl) _ _ _
    have hc1 : (checksumStep (specImageModel C) w req c p).1 = none := by rw [hstep]
    cases hw : ancestryWalk w.images C.maxDepth (req.Param ":image_id") [] with
    | error e =>
      have hanc : (ancestryStep (specImageModel C) w req c p).1 = some e := by
        unfold ancestryStep
        rw [hstep]
        simp [specImageModel, specPutAncestry, hfind1, hwalk, hw]
      rw [PutChecksum_ancestry_error _ w req c p e hc hp hc1 hanc]
      simp [failure, emptyOK, hv]
    | ok ids =>
      have hanc : ancestryStep (specImageModel C) w req c p =
          (none,
            { img with Checksum := c, Payload := p, Checksumed := true,
                       Ancestry := renderIds ids },
            saveImage (saveImage w { img with Checksum := c, Payload := p, Checksumed := true })
              { img with Checksum := c, Payload := p, Checksumed := true,
                         Ancestry := renderIds ids }) := by
        unfold ancestryStep
        rw [hstep]
        simp [specImageModel, specPutAncestry, hfind1, hwalk, hw]
      have hc2 : (ancestryStep (specImageModel C) w req c p).1 = none := by rw [hanc]
      have hok := PutChecksum_ok _ w req c p hc hp hc1 hc2
      refine ⟨?_, ?_, ?_⟩
      · simp [hok.1, hv]
      · intro _
        rw [hok.2, hanc]
        refine ⟨{ img with Checksum := c, Payload := p, Checksumed := true,
                           Ancestry := renderIds ids }, ?_, rfl, rfl, rfl⟩
        simp only [specImageModel, specLog]
        exact findImage_saveImage_of_id _ _ _ hidimg
      · intro hf
        rw [hv] at hf
        cases hf
  · -- the checksum does not match: nothing is stored
    have hv2 : validate C s c = false := by simpa using hv
    have hstep : checksumStep (specImageModel C) w req c p =
        (some ("ChecksumMismatch: " ++ req.Param ":image_id"), img, w) := by
      simp [checksumStep, specImageModel, specPutChecksum, himg, hlayer, hv2]
    have hc1 : (checksumStep (specImageModel C) w req c p).1
        = some ("ChecksumMismatch: " ++ req.Param ":image_id") := by rw [hstep]
    have hrun := PutChecksum_checksum_error _ w req c p _ hc hp hc1
    rw [hstep] at hrun
    refine ⟨?_, ?_, ?_⟩
    · rw [hrun]
      simp [failure, emptyOK, hv2]
    · intro h
      rw [hrun] at h
      simp [failure, emptyOK] at h
    · intro _
      exact hrun

section Finalize

theorem chainOffender_none (images : List Image) (fuel : Nat) (i : String)
    (h : chainOffender images fuel i = none) (a : String) (hr : Reaches images i a) :
    IsChecksummed images a := by
  induction fuel generalizing i with
  | zero => simp [chainOffender] at h
  | succ n ih =>
    unfold chainOffender at h
    cases hf : findImage images i with
    | none => simp [hf] at h
    | some img =>
      simp only [hf] at h
      by_cases hc : img.Checksumed = false
      · simp [hc] at h
      · rw [if_neg hc] at h
        have hc2 : img.Checksumed = true := by simpa using hc
        cases hr with
        | self => exact ⟨img, hf, hc2⟩
        | step _ p _ img2 hf2 hp hrest =>
          rw [hf] at hf2
          cases hf2
          rw [hp] at h
          exact ih p h hrest

theorem firstOffender_none (w : Registry) (maxDepth : Nat) (tags : List String)
    (h : firstOffender w maxDepth tags = none) (u : String) (hu : u ∈ tags) :
    ∃ t, findTag w.tags u = some t ∧ chainOffender w.images maxDepth t.ImageId = none := by
  induction tags with
  | nil => cases hu
  | cons v rest ih =>
    unfold firstOffender at h
    cases hf : findTag w.tags v with
    | none => simp [hf] at h
    | some t =>
      simp only [hf] at h
      cases hc : chainOffender w.images maxDepth t.ImageId with
      | some bad => simp [hc] at h
      | none =>
        simp only [hc] at h
        rcases List.mem_cons.1 hu with e | e
        · subst e
          exact ⟨t, hf, hc⟩
        · exact ih h e

theorem findRepository_key {repos : List Repository} {nspace name : String} {rp : Repository}
    (h : findRepository repos nspace name = some rp) : rp.Namespace = nspace ∧ rp.Name = name := by
  unfold findRepository at h
  have := List.find?_some h
  simpa using this

theorem findRepository_saveRepository (w : Registry) (rp : Repository) :
    findRepository (saveRepository w rp).repositories rp.Namespace rp.Name = some rp := by
  simp [findRepository, saveRepository]

theorem findRepository_saveRepository_of_key (w : Registry) (rp : Repository)
    (nspace name : String) (h1 : rp.Namespace = nspace) (h2 : rp.Name = name) :
    findRepository (saveRepository w rp).repositories nspace name = some rp := by
  subst h1 h2
  exact findRepository_saveRepository w rp

end Finalize

/-- Claim C2 (finalize gate), with `repo.PutImages` as the design document
describes `finalize`: for an authorized request, (1) if some image referenced
by a tag of the repository, or some ancestor of such an image, is not
`Checksummed`, `PutRepositoryImages` answers 400, leaves the registry as it
was (the upload flag is not set) and `repo.PutImages` has failed with
`IncompleteUpload`; (2) whenever it does not fail it answers 204, the stored
repository record has `Uploaded = true`, and every image referenced by a tag
and every ancestor of it is `Checksummed`; (3) it does succeed when the walk
over the tags finds no offending image. -/
theorem finalize_gate (C : Config) (w : Registry) (req : Request) (sess : Session)
    (hauth : (C.authorize req sess).1 = true) :
    (∀ rp u t a,
      findRepository w.repositories (req.Param ":namespace") (req.Param ":repo_name") = some rp →
      u ∈ rp.Tags → findTag w.tags u = some t → Reaches w.images t.ImageId a →
      ¬ IsChecksummed w.images a →
      (PutRepositoryImages (specRepoModel C) w req sess).outcome = finalizeFailure ∧
      (PutRepositoryImages (specRepoModel C) w req sess).world = w ∧
      ∃ bad, (specPutImages C Repository.new w (req.Param ":namespace")
        (req.Param ":repo_name")).1 = some ("IncompleteUpload: " ++ bad)) ∧
    ((PutRepositoryImages (specRepoModel C) w req sess).outcome ≠ finalizeFailure →
      (PutRepositoryImages (specRepoModel C) w req sess).outcome = finalizeOK ∧
      ∃ rp,
        findRepository w.repositories (req.Param ":namespace") (req.Param ":repo_name")
          = some rp ∧
        findRepository (PutRepositoryImages (specRepoModel C) w req sess).world.repositories
          (req.Param ":namespace") (req.Param ":repo_name") = some { rp with Uploaded := true } ∧
        ∀ u ∈ rp.Tags, ∃ t, findTag w.tags u = some t ∧
          ∀ a, Reaches w.images t.ImageId a → IsChecksummed w.images a) ∧
    (∀ rp,
      findRepository w.repositories (req.Param ":namespace") (req.Param ":repo_name") = some rp →
      firstOffender w C.maxDepth rp.Tags = none →
      (PutRepositoryImages (specRepoModel C) w req sess).outcome = finalizeOK) := by
  cases hrepo : findRepository w.repositories (req.Param ":namespace") (req.Param ":repo_name") with
  | none =>
    have hrun : PutRepositoryImages (specRepoModel C) w req sess = ⟨finalizeFailure, w⟩ := by
      unfold PutRepositoryImages
      simp [specRepoModel, hauth, specPutImages, hrepo, finalizeFailure, StatusBadRequest]
    refine ⟨?_, ?_, ?_⟩
    · intro rp u t a h
      cases h
    · intro h
      rw [hrun] at h
      exact absurd rfl h
    · intro rp h
      cases h
  | some rp =>
    obtain ⟨hk1, hk2⟩ := findRepository_key hrepo
    cases hoff : firstOffender w C.maxDepth rp.Tags with
    | some bad =>
      have hput : specPutImages C Repository.new w (req.Param ":namespace")
          (req.Param ":repo_name") = (some ("IncompleteUpload: " ++ bad), rp, w) := by
        simp [specPutImages, hrepo, hoff]
      have hrun : PutRepositoryImages (specRepoModel C) w req sess = ⟨finalizeFailure, w⟩ := by
        unfold PutRepositoryImages
        simp [specRepoModel, hauth, hput, finalizeFailure, StatusBadRequest]
      refine ⟨?_, ?_, ?_⟩
      · intro rp2 u t a h hu ht hreach hnot
        exact ⟨by rw [hrun], by rw [hrun], bad, by rw [hput]⟩
      · intro h
        rw [hrun] at h
        exact absurd rfl h
      · intro rp2 h hnone
        cases h
        rw [hoff] at hnone
        cases hnone
    | none =>
      have hput : specPutImages C Repository.new w (req.Param ":namespace")
          (req.Param ":repo_name")
          = (none, { rp with Uploaded := true }, saveRepository w { rp with Uploaded := true }) := by
        simp [specPutImages, hrepo, hoff]
      have hrun : PutRepositoryImages (specRepoModel C) w req sess
          = ⟨finalizeOK, saveRepository w { rp with Uploaded := true }⟩ := by
        unfold PutRepositoryImages
        simp [specRepoModel, hauth, hput, finalizeOK, StatusNoContent]
      have hall : ∀ u ∈ rp.Tags, ∃ t, findTag w.tags u = some t ∧
          ∀ a, Reaches w.images t.ImageId a → IsChecksummed w.images a := by
        intro u hu
        obtain ⟨t, ht, hchain⟩ := firstOffender_none w C.maxDepth rp.Tags hoff u hu
        exact ⟨t, ht, fun a ha => chainOffender_none w.images C.maxDepth t.ImageId hchain a ha⟩
      refine ⟨?_, ?_, ?_⟩
      · intro rp2 u t a h hu ht hreach hnot
        cases h
        obtain ⟨t2, ht2, hgood⟩ := hall u hu
        rw [ht] at ht2
        cases ht2
        exact absurd (hgood a hreach) hnot
      · intro _
        refine ⟨by rw [hrun], rp, rfl, ?_, hall⟩
        rw [hrun]
        exact findRepository_saveRepository_of_key w { rp with Uploaded := true } _ _ hk1 hk2
      · intro rp2 _ _
        rw [hrun]

section Tags

variable {W : Type}

theorem commaSeparated_cons (e : String) (rest : List String) :
    commaSeparated (e :: rest) = e ++ commaPrefixed rest := by
  induction rest generalizing e with
  | nil => simp [commaSeparated, commaPrefixed]
  | cons f rest ih =>
    simp only [commaSeparated, commaPrefixed, ih f]
    simp [String.append_assoc]

/-- The loop past its first position, when every tag resolves: each entry is
appended after a comma. -/
theorem tagsLoop_succ (M : RepoModel W) (w : W) (nspace repository : String) (k : Nat)
    (uuids : List String) (acc : String)
    (h : ∀ u ∈ uuids, (M.GetByUUID Tag.new w u).1 = none) :
    tagsLoop M w nspace repository (k + 1) uuids acc
      = Except.ok (acc ++ commaPrefixed
          (uuids.map (fun u => tagEntry (resolvedTag M w u).1 (resolvedTag M w u).2))) := by
  induction uuids generalizing k acc with
  | nil => simp [tagsLoop, commaPrefixed]
  | cons u rest ih =>
    have hu : (M.GetByUUID Tag.new w u).1 = none := h u (by simp)
    have hrest : ∀ v ∈ rest, (M.GetByUUID Tag.new w v).1 = none :=
      fun v hv => h v (by simp [hv])
    unfold tagsLoop
    simp only [hu, ih (k + 1) _ hrest]
    simp [commaPrefixed, tagEntry, resolvedTag, String.append_assoc]

theorem tagsLoop_zero (M : RepoModel W) (w : W) (nspace repository : String)
    (uuids : List String) (acc : String)
    (h : ∀ u ∈ uuids, (M.GetByUUID Tag.new w u).1 = none) :
    tagsLoop M w nspace repository 0 uuids acc
      = Except.ok (acc ++ commaSeparated
          (uuids.map (fun u => tagEntry (resolvedTag M w u).1 (resolvedTag M w u).2))) := by
  cases uuids with
  | nil => simp [tagsLoop, commaSeparated]
  | cons u rest =>
    have hu : (M.GetByUUID Tag.new w u).1 = none := h u (by simp)
    have hrest : ∀ v ∈ rest, (M.GetByUUID Tag.new w v).1 = none :=
      fun v hv => h v (by simp [hv])
    unfold tagsLoop
    simp only [hu, tagsLoop_succ M w nspace repository 0 rest _ hrest, List.map_cons,
      commaSeparated_cons]
    simp [tagEntry, resolvedTag, String.append_assoc]

/-- The loop stops at a tag that does not resolve, with the same response
wherever it stops. -/
theorem tagsLoop_unresolved (M : RepoModel W) (w : W) (nspace repository : String) (k : Nat)
    (uuids : List String) (acc : String)
    (h : ∃ u ∈ uuids, (M.GetByUUID Tag.new w u).1 ≠ none) :
    tagsLoop M w nspace repository k uuids acc
      = Except.error ⟨400, [], Body.text (noTagText nspace repository)⟩ := by
  induction uuids generalizing k acc with
  | nil =>
    obtain ⟨u, hu, _⟩ := h
    cases hu
  | cons v rest ih =>
    unfold tagsLoop
    cases hv : (M.GetByUUID Tag.new w v).1 with
    | some e => simp [hv, StatusBadRequest, noTagText]
    | none =>
      simp only [hv]
      apply ih
      obtain ⟨u, hu, hne⟩ := h
      rcases List.mem_cons.1 hu with e | e
      · subst e
        exact absurd hv hne
      · exact ⟨u, e, hne⟩

theorem noRepositoryText_ne_tagsBody (nspace repository : String)
    (entries : List (String × String)) :
    noRepositoryText nspace repository ≠ tagsBody entries := by
  intro h
  have := congrArg String.data h
  simp [noRepositoryText, tagsBody, String.data_append] at this

theorem noTagText_ne_tagsBody (nspace repository : String)
    (entries : List (String × String)) :
    noTagText nspace repository ≠ tagsBody entries := by
  intro h
  have := congrArg String.data h
  simp [noTagText, tagsBody, String.data_append] at this

end Tags

/-- Claim C8 (tag listing format): for an authorized request on which
`repo.Has` returns no error, (1) if the repository exists and every tag id of
its list resolves, `GetRepositoryTags` answers 200 with the body `tagsBody` of
the resolved `(name, image id)` pairs in list order: an opening brace, the
entries `"name":"id"` separated by single commas, a closing brace; (2) if the
repository does not exist the answer is 400 with a text body; (3) if some tag
does not resolve the answer is 400 with a text body; (4) neither text is a tag
object; (5) the tag object of no tags is the empty object, and of two tags it
is the two entries with one comma between them. -/
theorem tag_listing {W : Type} (M : RepoModel W) (w : W) (req : Request) (sess : Session)
    (hauth : (M.DoAuthGetRepositoryTags w req sess).1 = true)
    (herr : (M.Has Repository.new w (req.Param ":namespace")
      (req.Param ":repo_name")).1.2.2 = none) :
    ((M.Has Repository.new w (req.Param ":namespace") (req.Param ":repo_name")).1.1 = true →
      (∀ u ∈ (M.Has Repository.new w (req.Param ":namespace")
          (req.Param ":repo_name")).2.Tags, (M.GetByUUID Tag.new w u).1 = none) →
      (GetRepositoryTags M w req sess).outcome =
        Outcome.response ⟨200, [], Body.text (tagsBody
          ((M.Has Repository.new w (req.Param ":namespace")
            (req.Param ":repo_name")).2.Tags.map (resolvedTag M w)))⟩) ∧
    ((M.Has Repository.new w (req.Param ":namespace") (req.Param ":repo_name")).1.1 = false →
      (GetRepositoryTags M w req sess).outcome =
        Outcome.response ⟨400, [], Body.text
          (noRepositoryText (req.Param ":namespace") (req.Param ":repo_name"))⟩) ∧
    ((M.Has Repository.new w (req.Param ":namespace") (req.Param ":repo_name")).1.1 = true →
      (∃ u ∈ (M.Has Repository.new w (req.Param ":namespace")
          (req.Param ":repo_name")).2.Tags, (M.GetByUUID Tag.new w u).1 ≠ none) →
      (GetRepositoryTags M w req sess).outcome =
        Outcome.response ⟨400, [], Body.text
          (noTagText (req.Param ":namespace") (req.Param ":repo_name"))⟩) ∧
    (∀ entries, noRepositoryText (req.Param ":namespace") (req.Param ":repo_name")
        ≠ tagsBody entries ∧
      noTagText (req.Param ":namespace") (req.Param ":repo_name") ≠ tagsBody entries) ∧
    tagsBody [] = "\x7b\x7d" ∧
    (∀ n1 i1 n2 i2 : String, tagsBody [(n1, i1), (n2, i2)]
      = "\x7b" ++ ("\"" ++ n1 ++ "\":\"" ++ i1 ++ "\"") ++ "," ++
          ("\"" ++ n2 ++ "\":\"" ++ i2 ++ "\"") ++ "\x7d") := by
  refine ⟨?_, ?_, ?_, ?_, ?_, ?_⟩
  · intro hhas hres
    unfold GetRepositoryTags
    simp only [hauth, herr, hhas, tagsLoop_zero M w _ _ _ _ hres]
    simp [StatusOK, tagsBody, resolvedTag, Function.comp_def]
  · intro hhas
    unfold GetRepositoryTags
    simp [hauth, herr, hhas, StatusBadRequest, noRepositoryText]
  · intro hhas hbad
    unfold GetRepositoryTags
    simp only [hauth, herr, hhas, tagsLoop_unresolved M w _ _ _ _ _ hbad]
    simp
  · intro entries
    exact ⟨noRepositoryText_ne_tagsBody _ _ _, noTagText_ne_tagsBody _ _ _⟩
  · decide
  · intro n1 i1 n2 i2
    simp [tagsBody, commaSeparated, tagEntry, String.append_assoc]

theorem tag_listing_witness :
    (GetRepositoryTags (specRepoModel sampleConfig) twoTagsRegistry tagsRequest []).outcome =
      Outcome.response ⟨200, [], Body.text "\x7b\"latest\":\"a\",\"v1\":\"b\"\x7d"⟩ :=
  ((tag_listing (specRepoModel sampleConfig) twoTagsRegistry tagsRequest []
    (by decide) (by decide)).1 (by decide) (by decide)).trans (by decide)

/-- Claim C9 fails on the code: for every authorized `PutTag` request whose
session holds no `username` entry, the handler ends in a run-time panic (the
type assertion `this.GetSession("username").(string)` on a nil interface)
before any `repo.PutTag` call: no response is produced and the world is
unchanged. -/
theorem PutTag_needs_the_session_username {W : Type} (M : RepoModel W) (w : W) (req : Request)
    (sess : Session) (hauth : (M.DoAuthPutRepositoryTag w req sess).1 = true)
    (hnone : GetSession sess "username" = none) :
    (PutTag M w req sess).outcome
      = Outcome.panic "interface conversion: interface \x7b\x7d is nil, not string" ∧
    (PutTag M w req sess).world = w := by
  unfold PutTag
  simp [hauth, hnone]

theorem PutTag_needs_the_session_username_witness :
    (PutTag (specRepoModel sampleConfig) taggedRegistry tagRequest aliceSession).outcome
      = Outcome.response ⟨200, [], Body.text "\"\""⟩ ∧
    findTag (PutTag (specRepoModel sampleConfig) taggedRegistry tagRequest aliceSession).world.tags
      "library/app/tags/v2" = some ⟨"library/app/tags/v2", "v2", "a"⟩ ∧
    (PutTag (specRepoModel sampleConfig) taggedRegistry tagRequest []).outcome
      = Outcome.panic "interface conversion: interface \x7b\x7d is nil, not string" ∧
    (PutTag (specRepoModel sampleConfig) taggedRegistry tagRequest []).world = taggedRegistry :=
  ⟨by decide, by decide,
    (PutTag_needs_the_session_username (specRepoModel sampleConfig) taggedRegistry tagRequest []
      (by decide) (by decide)).1,
    (PutTag_needs_the_session_username (specRepoModel sampleConfig) taggedRegistry tagRequest []
      (by decide) (by decide)).2⟩

/-- Claim C10 (failure responses do not leak error detail): for every
endpoint of `ImageAPIV1Controller`, (1) whenever a call that the handler
checks returns an error with text `e` (`image.GetJSON`, `image.GetChecksum`,
`image.PutJSON`, `ioutil.WriteFile`, `image.PutLayer`, `image.PutChecksum`,
`image.PutAncestry`, `image.Has`, `os.Stat`, `ioutil.ReadFile`), the response
is status 400 with the JSON body `{"message": m}` for a constant `m` fixed by
the failing step; (2) two runs whose image stores and operating systems
answer alike except for the text of the errors they return end with the same
outcome, for each of the six endpoints. -/
theorem failure_responses_do_not_carry_error_text {W : Type} (M1 M2 : ImageModel W)
    (S1 S2 : Sys W) (A : AgreeUpToErrorText M1 M2) (B : SysAgreeUpToErrorText S1 S2)
    (w : W) (req : Request) :
    (∀ e : String,
      ((M1.GetJSON Image.new w (req.Param ":image_id")).1.2 = some e →
        (GetImageJSON M1 w req).outcome = failure "Search Image JSON Error") ∧
      ((M1.GetJSON Image.new w (req.Param ":image_id")).1.2 = none →
        (M1.GetChecksum (M1.GetJSON Image.new w (req.Param ":image_id")).2 w
          (req.Param ":image_id")).1.2 = some e →
        (GetImageJSON M1 w req).outcome = failure "Search Image Checksum Error") ∧
      ((M1.PutJSON Image.new w (req.Param ":image_id") req.copyBody M1.APIVERSION_V1).1 = some e →
        (PutImageJSON M1 w req).outcome = failure "Put Image JSON Error") ∧
      ((writeStep S1 w req).1 = some e →
        (PutImageLayer M1 S1 w req).outcome = failure "Put Image Layer File Error") ∧
      ((writeStep S1 w req).1 = none → (recordStep M1 S1 w req).1 = some e →
        (PutImageLayer M1 S1 w req).outcome = failure "Put Image Layer File Data Error") ∧
      (∀ checksum payload : String,
        headerField req "X-Docker-Checksum" = some checksum →
        headerField req "X-Docker-Checksum-Payload" = some payload →
        ((checksumStep M1 w req checksum payload).1 = some e →
          (PutChecksum M1 w req).outcome = failure "Put Image Checksum & Payload Error") ∧
        ((checksumStep M1 w req checksum payload).1 = none →
          (ancestryStep M1 w req checksum payload).1 = some e →
          (PutChecksum M1 w req).outcome = failure "Put Image Ancestry Error")) ∧
      ((M1.Has Image.new w (req.Param ":image_id")).1.2.2 = some e →
        (GetImageAncestry M1 w req).outcome = failure "Read Image Ancestry Error" ∧
        (GetImageLayer M1 S1 w req).outcome = failure "Read Image Layer file Error") ∧
      ((M1.Has Image.new w (req.Param ":image_id")).1.2.2 = none →
        (M1.Has Image.new w (req.Param ":image_id")).1.1 = true →
        (S1.Stat w (M1.Has Image.new w (req.Param ":image_id")).2.Path = some e →
          (GetImageLayer M1 S1 w req).outcome = failure "Read Image file state error") ∧
        (S1.Stat w (M1.Has Image.new w (req.Param ":image_id")).2.Path = none →
          (S1.ReadFile w (M1.Has Image.new w (req.Param ":image_id")).2.Path).2 = some e →
          (GetImageLayer M1 S1 w req).outcome = failure "Read Image file error"))) ∧
    (GetImageJSON M1 w req).outcome = (GetImageJSON M2 w req).outcome ∧
    (PutImageJSON M1 w req).outcome = (PutImageJSON M2 w req).outcome ∧
    (PutImageLayer M1 S1 w req).outcome = (PutImageLayer M2 S2 w req).outcome ∧
    (PutChecksum M1 w req).outcome = (PutChecksum M2 w req).outcome ∧
    (GetImageAncestry M1 w req).outcome = (GetImageAncestry M2 w req).outcome ∧
    (GetImageLayer M1 S1 w req).outcome = (GetImageLayer M2 S2 w req).outcome := by
  refine ⟨?_, GetImageJSON_agree A w req, PutImageJSON_agree A w req,
    PutImageLayer_agree A B w req, PutChecksum_agree A w req, GetImageAncestry_agree A w req,
    GetImageLayer_agree A B w req⟩
  intro e
  refine ⟨?_, ?_, ?_, ?_, ?_, ?_, ?_, ?_⟩
  · intro h
    simp [GetImageJSON, h, JSONOut, StatusBadRequest, failure]
  · intro h1 h2
    simp [GetImageJSON, h1, h2, JSONOut, StatusBadRequest, failure]
  · intro h
    simp [PutImageJSON, h, JSONOut, StatusBadRequest, failure]
  · intro h
    rw [PutImageLayer_write_error M1 S1 w req e h]
  · intro h1 h2
    rw [PutImageLayer_record_error M1 S1 w req e h1 h2]
  · intro checksum payload hc hp
    constructor
    · intro h
      rw [PutChecksum_checksum_error M1 w req checksum payload e hc hp h]
    · intro h1 h2
      rw [PutChecksum_ancestry_error M1 w req checksum payload e hc hp h1 h2]
  · intro h
    simp [GetImageAncestry, GetImageLayer, h, JSONOut, StatusBadRequest, failure]
  · intro h1 h2
    constructor
    · intro h
      simp [GetImageLayer, h1, h2, h, JSONOut, StatusBadRequest, failure]
    · intro h3 h4
      simp [GetImageLayer, h1, h2, h3, h4, JSONOut, StatusBadRequest, failure]

theorem failure_responses_do_not_carry_error_text_witness :
    (registrySys sampleConfig).Stat missingBlobRegistry "/data/images/a/layer"
      = some "stat /data/images/a/layer: no such file or directory" ∧
    (retextSys withStoragePath (registrySys sampleConfig)).Stat missingBlobRegistry
        "/data/images/a/layer"
      = some "/srv/registry/store: stat /data/images/a/layer: no such file or directory" ∧
    (GetImageLayer (specImageModel sampleConfig) (registrySys sampleConfig) missingBlobRegistry
      bareRequest).outcome = failure "Read Image file state error" ∧
    (GetImageLayer (specImageModel sampleConfig) (registrySys sampleConfig) missingBlobRegistry
      bareRequest).outcome
      = (GetImageLayer (retext withStoragePath (specImageModel sampleConfig))
          (retextSys withStoragePath (registrySys sampleConfig)) missingBlobRegistry
          bareRequest).outcome :=
  ⟨by decide, by decide,
    (((failure_responses_do_not_carry_error_text (specImageModel sampleConfig)
      (retext withStoragePath (specImageModel sampleConfig)) (registrySys sampleConfig)
      (retextSys withStoragePath (registrySys sampleConfig))
      (agree_retext withStoragePath _) (agree_retextSys withStoragePath _)
      missingBlobRegistry bareRequest).1
        "stat /data/images/a/layer: no such file or directory").2.2.2.2.2.2.2
        (by decide) (by decide)).1 (by decide),
    (failure_responses_do_not_carry_error_text (specImageModel sampleConfig)
      (retext withStoragePath (specImageModel sampleConfig)) (registrySys sampleConfig)
      (retextSys withStoragePath (registrySys sampleConfig))
      (agree_retext withStoragePath _) (agree_retextSys withStoragePath _)
      missingBlobRegistry bareRequest).2.2.2.2.2.2⟩

/-- Claim C5 fails on the code for `GetImageAncestry`: when `image.Has`
reports "not found" without an error, `GetImageLayer` answers 400 with the
message "Read Image None", but `GetImageAncestry` ends in a run-time panic:
it evaluates `err.Error()` for its log line while `err` is nil, and produces
no response. -/
theorem unknown_image_on_read {W : Type} (M : ImageModel W) (S : Sys W) (w : W)
    (req : Request)
    (hhas : (M.Has Image.new w (req.Param ":image_id")).1.1 = false)
    (herr : (M.Has Image.new w (req.Param ":image_id")).1.2.2 = none) :
    (GetImageLayer M S w req).outcome = failure "Read Image None" ∧
    (GetImageAncestry M w req).outcome
      = Outcome.panic "runtime error: invalid memory address or nil pointer dereference" := by
  simp [GetImageLayer, GetImageAncestry, hhas, herr, JSONOut, StatusBadRequest, failure]

theorem unknown_image_on_read_witness :
    (GetImageLayer (specImageModel sampleConfig) (registrySys sampleConfig) emptyRegistry
      bareRequest).outcome = failure "Read Image None" ∧
    (GetImageAncestry (specImageModel sampleConfig) emptyRegistry bareRequest).outcome
      = Outcome.panic "runtime error: invalid memory address or nil pointer dereference" :=
  unknown_image_on_read (specImageModel sampleConfig) (registrySys sampleConfig) emptyRegistry
    bareRequest (by decide) (by decide)

theorem layer_round_trip_witness :
    (GetImageLayer (specImageModel sampleConfig) (registrySys sampleConfig)
        (PutImageLayer (specImageModel sampleConfig) (registrySys sampleConfig)
          layerStoredRegistry smallUpload).world smallUpload).outcome
      = Outcome.response
          ⟨200,
            [("Content-Type", "application/octet-stream"),
             ("Content-Transfer-Encoding", "binary"),
             ("Content-Length", "3")],
            Body.bytes [7, 8, 9]⟩ :=
  layer_round_trip sampleConfig layerStoredRegistry smallUpload smallUpload rfl
    ⟨⟨200, [], Body.text ""⟩, by decide, by decide⟩

theorem finalize_gate_witness :
    (PutRepositoryImages (specRepoModel sampleConfig) taggedRegistry finalizeRequest []).outcome
      = finalizeOK ∧
    (PutRepositoryImages (specRepoModel sampleConfig) prematureRegistry finalizeRequest []).outcome
      = finalizeFailure ∧
    (PutRepositoryImages (specRepoModel sampleConfig) prematureRegistry finalizeRequest []).world
      = prematureRegistry :=
  ⟨(finalize_gate sampleConfig taggedRegistry finalizeRequest [] (by decide)).2.2
      ⟨"library", "app", "[]", ["library/app/tags/latest"], ["a"], false⟩ (by decide) (by decide),
    ((finalize_gate sampleConfig prematureRegistry finalizeRequest [] (by decide)).1
      ⟨"library", "app", "[]", ["library/app/tags/latest"], ["b"], false⟩
      "library/app/tags/latest" ⟨"library/app/tags/latest", "latest", "b"⟩ "b"
      (by decide) (by decide) (by decide) (Reaches.self "b")
      (fun h => by
        obtain ⟨img, h1, h2⟩ := h
        have hb : findImage prematureRegistry.images "b" = some orphanImage := by decide
        rw [hb] at h1
        cases h1
        exact absurd h2 (by decide))).1,
    ((finalize_gate sampleConfig prematureRegistry finalizeRequest [] (by decide)).1
      ⟨"library", "app", "[]", ["library/app/tags/latest"], ["b"], false⟩
      "library/app/tags/latest" ⟨"library/app/tags/latest", "latest", "b"⟩ "b"
      (by decide) (by decide) (by decide) (Reaches.self "b")
      (fun h => by
        obtain ⟨img, h1, h2⟩ := h
        have hb : findImage prematureRegistry.images "b" = some orphanImage := by decide
        rw [hb] at h1
        cases h1
        exact absurd h2 (by decide))).2.1⟩

theorem checksum_law_witness :
    (PutChecksum (specImageModel sampleConfig) layerStoredRegistry (checksumRequest "a")).outcome
        = emptyOK ↔
      validate sampleConfig [1, 2, 3] "aaa" = true ∧
        ∃ ids, ancestryWalk layerStoredRegistry.images sampleConfig.maxDepth
          ((checksumRequest "a").Param ":image_id") [] = Except.ok ids :=
  (checksum_law sampleConfig layerStoredRegistry (checksumRequest "a") layerStoredImage
    [1, 2, 3] "aaa" "ppp" (by decide) (by decide) (by decide) (by decide)).1

theorem audit_failure_does_not_fail_the_call_witness :
    (PutImageJSON (withLog (specImageModel sampleConfig) failingLog) layerStoredRegistry
      smallUpload).outcome = emptyOK ∧
    (PutImageLayer (withLog (specImageModel sampleConfig) failingLog)
      (registrySys sampleConfig) layerStoredRegistry smallUpload).outcome = emptyOK ∧
    (PutChecksum (withLog (specImageModel sampleConfig) failingLog) layerStoredRegistry
      (checksumRequest "a")).outcome = emptyOK ∧
    (PutChecksum (withLog (specImageModel sampleConfig) failingLog) layerStoredRegistry
      (checksumRequest "a")).log = ["[REGISTRY API V1] Log Error:audit sink unreachable"] :=
  ⟨(audit_failure_does_not_fail_the_call (specImageModel sampleConfig)
      (registrySys sampleConfig) failingLog layerStoredRegistry smallUpload).1 (by decide),
    (audit_failure_does_not_fail_the_call (specImageModel sampleConfig)
      (registrySys sampleConfig) failingLog layerStoredRegistry smallUpload).2.1
      (by decide) (by decide),
    (audit_failure_does_not_fail_the_call (specImageModel sampleConfig)
      (registrySys sampleConfig) failingLog layerStoredRegistry (checksumRequest "a")).2.2
      "aaa" "ppp" (by decide) (by decide) (by decide) (by decide),
    by decide⟩

/-- Claim C4 fails on the code: for every request whose `X-Docker-Checksum` or
`X-Docker-Checksum-Payload` header value contains no `:` (an absent or empty
header included), `PutChecksum` ends in a run-time panic, the index `[1]` into
the one-element result of `strings.Split` being out of range: it produces no
response, so no structured failure of any message, and reaches no store
call. -/
theorem PutChecksum_malformed_header_panics {W : Type} (M : ImageModel W) (w : W)
    (req : Request)
    (h : ':' ∉ (req.Header "X-Docker-Checksum").toList ∨
      ':' ∉ (req.Header "X-Docker-Checksum-Payload").toList) :
    (PutChecksum M w req).outcome = Outcome.panic "runtime error: index out of range" ∧
    (PutChecksum M w req).world = w ∧
    ∀ m, (PutChecksum M w req).outcome ≠ failure m := by
  have key : (PutChecksum M w req).outcome = Outcome.panic "runtime error: index out of range" ∧
      (PutChecksum M w req).world = w := by
    unfold PutChecksum
    rcases h with h | h
    · simp [Split_of_not_mem _ _ h]
    · simp only [Split_of_not_mem _ _ h]
      split <;> simp
  refine ⟨key.1, key.2, ?_⟩
  intro m hm
  rw [key.1] at hm
  cases hm

theorem PutChecksum_malformed_header_panics_witness :
    bareRequest.Header "X-Docker-Checksum" = "" ∧
    (PutChecksum (specImageModel sampleConfig) layerStoredRegistry bareRequest).outcome
      = Outcome.panic "runtime error: index out of range" ∧
    (PutChecksum (specImageModel sampleConfig) layerStoredRegistry bareRequest).world
      = layerStoredRegistry :=
  ⟨by decide,
    (PutChecksum_malformed_header_panics (specImageModel sampleConfig) layerStoredRegistry
      bareRequest (Or.inl (by decide))).1,
    (PutChecksum_malformed_header_panics (specImageModel sampleConfig) layerStoredRegistry
      bareRequest (Or.inl (by decide))).2.1⟩

section Frame

theorem lookup_filter_ne (l : List (String × Bytes)) (p q : String) (h : p ≠ q) :
    List.lookup p (l.filter (fun f => f.1 != q)) = List.lookup p l := by
  induction l with
  | nil => rfl
  | cons kv rest ih =>
    obtain ⟨k, v⟩ := kv
    by_cases hk : k = q
    · subst hk
      have hpk : (p == k) = false := by simpa using h
      simp [List.filter, List.lookup, hpk, ih]
    · have hkq : (k != q) = true := by simpa using hk
      simp only [List.filter, hkq, List.lookup, ih]

theorem MkdirAll_files (fs : FileSys) (p : String) : (fs.MkdirAll p).2.files = fs.files := by
  unfold FileSys.MkdirAll
  simp only []
  split <;> rfl

theorem Remove_lookup_ne (fs : FileSys) (p q : String) (h : p ≠ q) :
    (fs.Remove q).2.files.lookup p = fs.files.lookup p := by
  unfold FileSys.Remove
  split
  · exact lookup_filter_ne _ _ _ h
  · split
    · split <;> rfl
    · rfl

theorem WriteFile_lookup_ne (fs : FileSys) (p q : String) (d : Bytes) (h : p ≠ q) :
    (fs.WriteFile q d).2.files.lookup p = fs.files.lookup p := by
  have hpq : (p == q) = false := by simpa using h
  unfold FileSys.WriteFile
  split
  · rfl
  · split
    · rfl
    · simp only []
      split <;> simp [List.lookup, hpq, lookup_filter_ne _ _ _ h]

theorem worldBeforeWrite_lookup_ne (C : Config) (w : Registry) (i p : String)
    (h : p ≠ layerfileOf C.BasePath i) :
    (worldBeforeWrite (registrySys C) w i).fs.files.lookup p = w.fs.files.lookup p := by
  unfold worldBeforeWrite registrySys
  simp only []
  split <;> split <;> simp [Remove_lookup_ne _ _ _ h, MkdirAll_files]

theorem writeStep_lookup_ne (C : Config) (w : Registry) (req : Request) (p : String)
    (h : p ≠ layerfileOf C.BasePath (req.Param ":image_id")) :
    (writeStep (registrySys C) w req).2.fs.files.lookup p = w.fs.files.lookup p := by
  have h1 := worldBeforeWrite_lookup_ne C w (req.Param ":image_id") p h
  unfold writeStep
  simp only [registrySys] at h1 ⊢
  rw [WriteFile_lookup_ne _ _ _ _ h]
  exact h1

theorem layerfileOf_injective (basePath X Y : String)
    (h : layerfileOf basePath X = layerfileOf basePath Y) : X = Y := by
  have hd := congrArg String.data h
  simp only [layerfileOf, String.data_append, List.append_assoc] at hd
  have h1 := List.append_cancel_left hd
  have h2 := List.append_cancel_left h1
  have h3 := List.append_cancel_right h2
  exact String.ext h3

end Frame

theorem specImageModel_keepsFiles (C : Config) : KeepsFiles (specImageModel C) := by
  constructor
  · intro r w i p u n
    simp only [specImageModel, specPutLayer]
    split <;> rfl
  · intro r w ev
    rfl

/-- Claim C11 (no cross-contamination of blobs): for a fixed base path, every
image store that leaves the blob store alone, every registry and every upload
request for an image `X`, (1) the layer path of every other image id `Y` is
distinct from the layer path of `X`; (2) whatever the outcome of
`PutImageLayer`, every file at a path other than the layer path of `X` is
after the call exactly what it was before; (3) so the layer file stored for
every `Y` other than `X` is unchanged, for every uploaded body. -/
theorem upload_touches_only_its_layer_file (C : Config) (M : ImageModel Registry)
    (hM : KeepsFiles M) (w : Registry) (req : Request) :
    (∀ Y, Y ≠ req.Param ":image_id" →
      layerfileOf C.BasePath Y ≠ layerfileOf C.BasePath (req.Param ":image_id")) ∧
    (∀ p, p ≠ layerfileOf C.BasePath (req.Param ":image_id") →
      (PutImageLayer M (registrySys C) w req).world.fs.files.lookup p
        = w.fs.files.lookup p) ∧
    (∀ Y, Y ≠ req.Param ":image_id" →
      (PutImageLayer M (registrySys C) w req).world.fs.files.lookup (layerfileOf C.BasePath Y)
        = w.fs.files.lookup (layerfileOf C.BasePath Y)) := by
  have hpaths : ∀ Y, Y ≠ req.Param ":image_id" →
      layerfileOf C.BasePath Y ≠ layerfileOf C.BasePath (req.Param ":image_id") :=
    fun Y hY e => hY (layerfileOf_injective _ _ _ e)
  have hframe : ∀ p, p ≠ layerfileOf C.BasePath (req.Param ":image_id") →
      (PutImageLayer M (registrySys C) w req).world.fs.files.lookup p
        = w.fs.files.lookup p := by
    intro p hp
    have hw := writeStep_lookup_ne C w req p hp
    rcases hwr : (writeStep (registrySys C) w req).1 with _ | e
    · have hrec : (recordStep M (registrySys C) w req).2.2.fs
          = (writeStep (registrySys C) w req).2.fs := hM.1 _ _ _ _ _ _
      rcases hp2 : (recordStep M (registrySys C) w req).1 with _ | e
      · rw [(PutImageLayer_ok M (registrySys C) w req hwr hp2).2, hM.2, hrec]
        exact hw
      · rw [PutImageLayer_record_error M (registrySys C) w req e hwr hp2]
        simp only [hrec]
        exact hw
    · rw [PutImageLayer_write_error M (registrySys C) w req e hwr]
      exact hw
  exact ⟨hpaths, hframe, fun Y hY => hframe _ (hpaths Y hY)⟩

theorem upload_touches_only_its_layer_file_witness :
    layerStoredRegistry.fs.files.lookup (layerfileOf sampleConfig.BasePath "b")
      = some [1, 2, 3] ∧
    (PutImageLayer (specImageModel sampleConfig) (registrySys sampleConfig) layerStoredRegistry
      smallUpload).world.fs.files.lookup (layerfileOf sampleConfig.BasePath "a")
      = some [7, 8, 9] ∧
    (PutImageLayer (specImageModel sampleConfig) (registrySys sampleConfig) layerStoredRegistry
      smallUpload).world.fs.files.lookup (layerfileOf sampleConfig.BasePath "b")
      = layerStoredRegistry.fs.files.lookup (layerfileOf sampleConfig.BasePath "b") :=
  ⟨by decide, by decide,
    (upload_touches_only_its_layer_file sampleConfig (specImageModel sampleConfig)
      (specImageModel_keepsFiles sampleConfig) layerStoredRegistry smallUpload).2.2 "b"
      (by decide)⟩

section Fields

theorem splitChars_append_sep (sep : Char) (a v : List Char) (h : sep ∉ a) :
    splitChars sep (a ++ sep :: v) = a :: splitChars sep v := by
  induction a with
  | nil => simp [splitChars]
  | cons c cs ih =>
    have hc : c ≠ sep := fun e => h (by simp [e])
    have hcs : sep ∉ cs := fun e => h (by simp [e])
    simp [splitChars, hc, ih hcs]

theorem splitChars_head (sep : Char) (v : List Char) :
    ∃ t, splitChars sep v = v.takeWhile (fun c => c != sep) :: t := by
  induction v with
  | nil => exact ⟨[], by simp [splitChars]⟩
  | cons c cs ih =>
    obtain ⟨t, ht⟩ := ih
    by_cases hc : c = sep
    · exact ⟨splitChars sep cs, by simp [splitChars, hc]⟩
    · exact ⟨t, by simp [splitChars, hc, ht]⟩

/-- The second field of `a:v`, for an `a` without `:`, is `v` up to its first
`:`. -/
theorem Split_second_field (a v : String) (h : ':' ∉ a.toList) :
    (Split (a ++ ":" ++ v) ':')[1]? = some (upToColon v) := by
  obtain ⟨t, ht⟩ := splitChars_head ':' v.toList
  have hl : (a ++ ":" ++ v).toList = a.toList ++ ':' :: v.toList := by
    simp [String.toList, String.data_append]
  unfold Split upToColon
  rw [hl, splitChars_append_sep ':' _ _ h, ht]
  simp

theorem upToColon_of_not_mem (v : String) (h : ':' ∉ v.toList) : upToColon v = v := by
  unfold upToColon
  have : v.toList.takeWhile (fun c => c != ':') = v.toList := by
    rw [List.takeWhile_eq_self_iff]
    intro c hc
    have : c ≠ ':' := fun e => h (e ▸ hc)
    simpa using this
  rw [this]
  rfl

end Fields

/-- Claim C12 as stated fails: the header value `tarsum:ab:cd` is the algorithm
name `tarsum`, which has no `:`, followed by `:` and the declared value `ab:cd`,
and `PutChecksum` submits `ab` to the image store, not `ab:cd`. -/
theorem declared_value_is_cut_at_a_colon :
    colonRequest.Header "X-Docker-Checksum" = "tarsum" ++ ":" ++ "ab:cd" ∧
    (PutChecksum recordingModel [] colonRequest).outcome = emptyOK ∧
    (PutChecksum recordingModel [] colonRequest).world = [("a", "ab", true, "ppp")] := by
  decide

/-- Claim C12 amended: for every request whose `X-Docker-Checksum` value is
`a ++ ":" ++ v` and whose `X-Docker-Checksum-Payload` value is `b ++ ":" ++ pv`,
the names `a` and `b` without `:`, the one call `PutChecksum` makes to
`image.PutChecksum` carries the image id, the part of `v` before its first `:`
as the checksum and the part of `pv` before its first `:` as the payload; these
are exactly `v` and `pv` whenever `v` and `pv` contain no `:`. -/
theorem checksum_field_after_the_algorithm (req : Request) (a v b pv : String)
    (hc : req.Header "X-Docker-Checksum" = a ++ ":" ++ v) (ha : ':' ∉ a.toList)
    (hp : req.Header "X-Docker-Checksum-Payload" = b ++ ":" ++ pv) (hb : ':' ∉ b.toList) :
    headerField req "X-Docker-Checksum" = some (upToColon v) ∧
    headerField req "X-Docker-Checksum-Payload" = some (upToColon pv) ∧
    (PutChecksum recordingModel [] req).world
      = [(req.Param ":image_id", upToColon v, true, upToColon pv)] ∧
    (':' ∉ v.toList → ':' ∉ pv.toList →
      (PutChecksum recordingModel [] req).world = [(req.Param ":image_id", v, true, pv)]) := by
  have h1 : headerField req "X-Docker-Checksum" = some (upToColon v) := by
    unfold headerField
    rw [hc]
    exact Split_second_field a v ha
  have h2 : headerField req "X-Docker-Checksum-Payload" = some (upToColon pv) := by
    unfold headerField
    rw [hp]
    exact Split_second_field b pv hb
  have hw : (PutChecksum recordingModel [] req).world
      = [(req.Param ":image_id", upToColon v, true, upToColon pv)] := by
    rw [(PutChecksum_ok recordingModel [] req _ _ h1 h2 rfl rfl).2]
    rfl
  refine ⟨h1, h2, hw, ?_⟩
  intro hv hpv
  rw [hw, upToColon_of_not_mem v hv, upToColon_of_not_mem pv hpv]

theorem checksum_field_after_the_algorithm_witness :
    (PutChecksum recordingModel [] (checksumRequest "a")).world
      = [("a", "aaa", true, "ppp")] :=
  (checksum_field_after_the_algorithm (checksumRequest "a") "sha256" "aaa" "sha256" "ppp"
    (by decide) (by decide) (by decide) (by decide)).2.2.2 (by decide) (by decide)

section Match

theorem findQuoted_length (l : List Char) (m : List (List Char)) (h : findQuoted l = some m) :
    ∃ whole g, m = [whole, g] := by
  induction l with
  | nil => simp [findQuoted] at h
  | cons c cs ih =>
    unfold findQuoted at h
    cases hm : matchQuotedAt (c :: cs) with
    | some g =>
      rw [hm] at h
      simp only [Option.some.injEq] at h
      exact ⟨_, _, h.symm⟩
    | none =>
      rw [hm] at h
      exact ih h

end Match

/-- Claim C13 fails on the code: for every authorised `PutTag` request on a
session that holds a `username`, (1) if the body has no double-quoted
non-empty alphanumeric token, `FindStringSubmatch` returns the nil slice and
the index `imageIds[1]` panics: no response is produced, `repo.PutTag` is not
called and the world is unchanged; (2) if the body has such a token, the match
has a whole part and a group, and the group of the leftmost match is the image
id passed to `repo.PutTag`, whose result decides the response. -/
theorem PutTag_without_an_image_id_panics {W : Type} (M : RepoModel W) (w : W) (req : Request)
    (sess : Session) (name : String)
    (hauth : (M.DoAuthPutRepositoryTag w req sess).1 = true)
    (huser : GetSession sess "username" = some (SessionValue.str name)) :
    (FindStringSubmatch req.copyBody = none →
      (PutTag M w req sess).outcome = Outcome.panic "runtime error: index out of range" ∧
      (PutTag M w req sess).world = w) ∧
    (∀ m, FindStringSubmatch req.copyBody = some m →
      ∃ whole imageId, m = [whole, imageId] ∧
        (PutTag M w req sess).world
          = (M.PutTag Repository.new w imageId (req.Param ":namespace")
              (req.Param ":repo_name") (req.Param ":tag")).2.2 ∧
        ((M.PutTag Repository.new w imageId (req.Param ":namespace")
            (req.Param ":repo_name") (req.Param ":tag")).1 = none →
          (PutTag M w req sess).outcome = Outcome.response ⟨200, [], Body.text "\"\""⟩)) := by
  constructor
  · intro hnone
    unfold PutTag
    simp [hauth, huser, hnone]
  · intro m hm
    have hm2 := hm
    unfold FindStringSubmatch at hm2
    cases hq : findQuoted req.copyBody.toList with
    | none => rw [hq] at hm2; simp at hm2
    | some q =>
      rw [hq] at hm2
      simp only [Option.map_some', Option.some.injEq] at hm2
      obtain ⟨whole, g, hwg⟩ := findQuoted_length _ _ hq
      subst hwg
      subst hm2
      refine ⟨String.mk whole, String.mk g, rfl, ?_, ?_⟩
      · unfold PutTag
        simp only [hauth, huser, hm]
        simp
        split <;> rfl
      · intro hok
        unfold PutTag
        simp only [hauth, huser, hm]
        simp [hok, StatusOK]

theorem PutTag_without_an_image_id_panics_witness :
    FindStringSubmatch emptyTagRequest.copyBody = none ∧
    (PutTag (specRepoModel sampleConfig) taggedRegistry emptyTagRequest aliceSession).outcome
      = Outcome.panic "runtime error: index out of range" ∧
    (PutTag (specRepoModel sampleConfig) taggedRegistry emptyTagRequest aliceSession).world
      = taggedRegistry ∧
    (PutTag (specRepoModel sampleConfig) taggedRegistry dashedTagRequest aliceSession).outcome
      = Outcome.panic "runtime error: index out of range" :=
  ⟨by decide,
    ((PutTag_without_an_image_id_panics (specRepoModel sampleConfig) taggedRegistry
      emptyTagRequest aliceSession "alice" (by decide) (by decide)).1 (by decide)).1,
    ((PutTag_without_an_image_id_panics (specRepoModel sampleConfig) taggedRegistry
      emptyTagRequest aliceSession "alice" (by decide) (by decide)).1 (by decide)).2,
    ((PutTag_without_an_image_id_panics (specRepoModel sampleConfig) taggedRegistry
      dashedTagRequest aliceSession "alice" (by decide) (by decide)).1 (by decide)).1⟩

section Decimal

theorem toDigitsCore_length_pos (b f n : Nat) (l : List Char) (hf : 0 < f) :
    l.length + 1 ≤ (Nat.toDigitsCore b f n l).length := by
  induction f generalizing n l with
  | zero => omega
  | succ f ih =>
    simp only [Nat.toDigitsCore]
    split
    · simp
    · cases f with
      | zero => simp [Nat.toDigitsCore]
      | succ g =>
        have := ih (n / b) (Nat.digitChar (n % b) :: l) (by omega)
        simp only [List.length_cons] at this
        omega

/-- A number of at least ten has at least two decimal digits. -/
theorem decimal_length_ge_two (n : Nat) (h : 10 ≤ n) : 2 ≤ (decimal n).length := by
  unfold decimal Nat.repr Nat.toDigits
  simp only [List.asString, String.length]
  rw [Nat.toDigitsCore]
  have hne : ¬ (n / 10 = 0) := by omega
  simp only [hne, if_false]
  have := toDigitsCore_length_pos 10 n (n / 10) [Nat.digitChar (n % 10)] (by omega)
  simpa using this

theorem stringOfInt64_length (n : Nat) : (stringOfInt64 n).length = 1 := by
  unfold stringOfInt64
  split <;> rfl

/-- The string of the code point `n` is never the decimal representation of
`n`. -/
theorem stringOfInt64_ne_decimal (n : Nat) : stringOfInt64 n ≠ decimal n := by
  intro h
  by_cases hn : 10 ≤ n
  · have h1 := stringOfInt64_length n
    have h2 := decimal_length_ge_two n hn
    rw [h] at h1
    omega
  · have hlt : n < 10 := by omega
    interval_cases n <;> exact absurd h (by decide)

end Decimal

/-- Claim C14 (Content-Length of a layer download): for every image store and
operating system, whenever `GetImageLayer` succeeds on a layer file of `n`
bytes, the response is 200 with those `n` bytes as the body and the
`Content-Length` header it carries is the decimal representation of `n`
(`1024` for a layer of 1024 bytes).  The handler first sets the header to
`string(int64(n))`, the text of the single code point `n`, which is never the
decimal representation; `Output.Body`, the last call, sets it again to
`strconv.Itoa(n)`, and that is the value sent. -/
theorem content_length_is_the_decimal_length {W : Type} (M : ImageModel W) (S : Sys W) (w : W)
    (req : Request)
    (herr : (M.Has Image.new w (req.Param ":image_id")).1.2.2 = none)
    (hhas : (M.Has Image.new w (req.Param ":image_id")).1.1 = true)
    (hstat : S.Stat w (M.Has Image.new w (req.Param ":image_id")).2.Path = none)
    (hread : (S.ReadFile w (M.Has Image.new w (req.Param ":image_id")).2.Path).2 = none) :
    (GetImageLayer M S w req).outcome = Outcome.response
      ⟨200,
        [("Content-Type", "application/octet-stream"),
         ("Content-Transfer-Encoding", "binary"),
         ("Content-Length", decimal
            (S.ReadFile w (M.Has Image.new w (req.Param ":image_id")).2.Path).1.length)],
        Body.bytes (S.ReadFile w (M.Has Image.new w (req.Param ":image_id")).2.Path).1⟩ ∧
    (∃ r, (GetImageLayer M S w req).outcome = Outcome.response r ∧ r.status = 200 ∧
      r.body = Body.bytes
        (S.ReadFile w (M.Has Image.new w (req.Param ":image_id")).2.Path).1 ∧
      r.header "Content-Length" = some (decimal
        (S.ReadFile w (M.Has Image.new w (req.Param ":image_id")).2.Path).1.length)) ∧
    (∀ n, setHeader [("Content-Length", stringOfInt64 n)] "Content-Length" (decimal n)
        = [("Content-Length", decimal n)] ∧ stringOfInt64 n ≠ decimal n) ∧
    decimal 1024 = "1024" := by
  have hrun : (GetImageLayer M S w req).outcome = Outcome.response
      ⟨200,
        [("Content-Type", "application/octet-stream"),
         ("Content-Transfer-Encoding", "binary"),
         ("Content-Length", decimal
            (S.ReadFile w (M.Has Image.new w (req.Param ":image_id")).2.Path).1.length)],
        Body.bytes (S.ReadFile w (M.Has Image.new w (req.Param ":image_id")).2.Path).1⟩ := by
    unfold GetImageLayer
    simp only [herr, hhas, hstat, hread]
    simp [setHeader, List.lookup, StatusOK]
  refine ⟨hrun, ⟨_, hrun, rfl, rfl, ?_⟩, fun n => ⟨?_, stringOfInt64_ne_decimal n⟩, by decide⟩
  · simp [Response.header, List.lookup]
  · simp [setHeader, List.lookup]

theorem content_length_is_the_decimal_length_witness :
    (GetImageLayer (specImageModel sampleConfig) (registrySys sampleConfig) downloadRegistry
      bareRequest).outcome
      = Outcome.response
          ⟨200,
            [("Content-Type", "application/octet-stream"),
             ("Content-Transfer-Encoding", "binary"),
             ("Content-Length", "3")],
            Body.bytes [1, 2, 3]⟩ ∧
    ∃ r, (GetImageLayer (specImageModel sampleConfig) (registrySys sampleConfig)
        downloadRegistry bareRequest).outcome = Outcome.response r ∧ r.status = 200 ∧
      r.body = Body.bytes [1, 2, 3] ∧ r.header "Content-Length" = some (decimal 3) :=
  ⟨by decide,
    (content_length_is_the_decimal_length (specImageModel sampleConfig)
      (registrySys sampleConfig) downloadRegistry bareRequest (by decide) (by decide)
      (by decide) (by decide)).2.1⟩

end Wharf
